import Mathlib

/-!
# SCMI clock protocol handler (SCP firmware side)

A shallow embedding of `scp_firmware_clock_handler.c`: the three command
handlers (rate set, rate get, config set) and the message dispatcher, with the
clock backend and the `respond` callback made explicit as a recorded trace.
The driver side, `scmi_clk_round_rate` and `scmi_clk_of_xlate` of
`scmi_clock_example.c`, follows the firmware definitions.

Conventions of the embedding:

* machine words are natural numbers, reduced `% 2 ^ 32` when a `uint32_t` is
  read and `% 2 ^ 64` where a `uint64_t` is computed;
* `const uint32_t *payload` is the list of 32-bit words behind the pointer; a
  read past its end, like a read of `clock_devices` past the end of the table,
  has no defined behaviour and makes the handler return `none`;
* every call into the clock module API and every `respond` call is appended to
  a chronological trace, next to the backend's own state;
* a struct field that the C code never assigns is `none`.
-/

namespace ScmiClock

/-! ## Types and constants declared in headers outside the source tree -/

/-- Framework identifier `fwk_id_t` (`fwk_id.h`), kept as an uninterpreted number. -/
abbrev fwk_id_t := Nat

/-- Modelled from the spec: the `ProtocolStatus` enumeration of section 3, whose
C constants `SCMI_*` come from `mod_scmi.h`, a header that is not in the source
tree. One constructor per constant, named as the handler names it. -/
inductive scmi_status where
  | SCMI_SUCCESS
  | SCMI_NOT_FOUND
  | SCMI_INVALID_PARAMETERS
  | SCMI_OUT_OF_RANGE
  | SCMI_BUSY
  | SCMI_NOT_SUPPORTED
  | SCMI_HARDWARE_ERROR
  | SCMI_GENERIC_ERROR
  deriving DecidableEq, Repr

/-- Modelled from the spec: the rounding directive handed to `set_rate`
(`enum mod_clock_round_mode` of `mod_clock.h`, absent from the source tree). The
handler names only `MOD_CLOCK_ROUND_MODE_NEAREST`. -/
inductive mod_clock_round_mode where
  | MOD_CLOCK_ROUND_MODE_NONE
  | MOD_CLOCK_ROUND_MODE_NEAREST
  | MOD_CLOCK_ROUND_MODE_DOWN
  | MOD_CLOCK_ROUND_MODE_UP
  deriving DecidableEq, Repr

/-- Modelled from the spec: the run state handed to `set_state`
(`{Running, Stopped}`, `enum mod_clock_state` of `mod_clock.h`). -/
inductive mod_clock_state where
  | MOD_CLOCK_STATE_STOPPED
  | MOD_CLOCK_STATE_RUNNING
  deriving DecidableEq, Repr

/-- The framework constants the handler compares against or returns. Their
numeric values live in `fwk_status.h` and `fwk_id.h`, which are not in the
source tree, so they are parameters of the embedding. -/
structure fwk_consts where
  FWK_SUCCESS : Int
  FWK_E_RANGE : Int
  FWK_E_BUSY : Int
  FWK_E_SUPPORT : Int
  FWK_ID_NONE : fwk_id_t
  deriving DecidableEq, Repr

/-- The four framework status codes named by the handler are pairwise different
(the three `case` labels of one `switch` must be, and none of them is the
success code). -/
def fwk_consts.distinct (K : fwk_consts) : Prop :=
  K.FWK_E_RANGE ≠ K.FWK_SUCCESS ∧ K.FWK_E_BUSY ≠ K.FWK_SUCCESS ∧
  K.FWK_E_SUPPORT ≠ K.FWK_SUCCESS ∧ K.FWK_E_RANGE ≠ K.FWK_E_BUSY ∧
  K.FWK_E_RANGE ≠ K.FWK_E_SUPPORT ∧ K.FWK_E_BUSY ≠ K.FWK_E_SUPPORT

instance (K : fwk_consts) : Decidable K.distinct := by
  unfold fwk_consts.distinct; infer_instance

/-- Identifier comparison `fwk_id_is_equal(a, b)`. -/
def fwk_id_is_equal (a b : fwk_id_t) : Bool := decide (a = b)

/-! ## Command identifiers and wire structures -/

/-- Command id `SCMI_CLOCK_ATTRIBUTES = 0x3`. -/
def SCMI_CLOCK_ATTRIBUTES : Nat := 0x3
/-- Command id `SCMI_CLOCK_DESCRIBE_RATES = 0x4`. -/
def SCMI_CLOCK_DESCRIBE_RATES : Nat := 0x4
/-- Command id `SCMI_CLOCK_RATE_SET = 0x5`. -/
def SCMI_CLOCK_RATE_SET : Nat := 0x5
/-- Command id `SCMI_CLOCK_RATE_GET = 0x6`. -/
def SCMI_CLOCK_RATE_GET : Nat := 0x6
/-- Command id `SCMI_CLOCK_CONFIG_SET = 0x7`. -/
def SCMI_CLOCK_CONFIG_SET : Nat := 0x7

/-- What a handler hands to `respond`: either a struct holding the single
`int32_t status` (rate set, config set, unsupported message), or the rate-get
struct `{status, rate_low, rate_high}`. A rate field that was never assigned is
`none`. -/
inductive response where
  | status_only (status : scmi_status)
  | rate_get (status : scmi_status) (rate_low rate_high : Option Nat)
  deriving DecidableEq, Repr

/-- The size `sizeof(return_values)` passed to `respond`: one 32-bit word, or
three. -/
def response.sizeof : response → Nat
  | .status_only _ => 4
  | .rate_get _ _ _ => 12

/-- The status word a response begins with. -/
def response.status : response → scmi_status
  | .status_only s => s
  | .rate_get s _ _ => s

/-- One entry of the clock table (`struct mod_scmi_clock_device`, initialised in
`example_platform_clock_config.c`); the element id is the only field the
handler reads. -/
structure mod_scmi_clock_device where
  element_id : fwk_id_t
  starts_enabled : Bool
  deriving DecidableEq, Repr

/-- The module context `struct scmi_clock_ctx` (the two API pointers are the
`mod_clock_api` argument and the trace). -/
structure scmi_clock_ctx where
  scmi_service_id : fwk_id_t
  clock_count : Nat
  clock_devices : List mod_scmi_clock_device
  deriving DecidableEq, Repr

/-! ## The outside world: clock backend and response channel -/

/-- An observable action of the handler: a call of one of the three clock
module operations, or a call of `respond` with its payload and size. -/
inductive event where
  | set_rate (element_id : fwk_id_t) (rate : Nat) (round_mode : mod_clock_round_mode)
  | get_rate (element_id : fwk_id_t)
  | set_state (element_id : fwk_id_t) (state : mod_clock_state)
  | respond (service_id : fwk_id_t) (payload : response) (size : Nat)
  deriving DecidableEq, Repr

/-- Is the event a call into the clock backend? -/
def event.is_backend : event → Bool
  | .respond _ _ _ => false
  | _ => true

/-- The clock module API (`struct mod_clock_api`) over a backend state `β`:
each operation returns a framework status code and the next backend state;
`get_rate` also returns the value it stored through its out-pointer. -/
structure mod_clock_api (β : Type) where
  set_rate : fwk_id_t → Nat → mod_clock_round_mode → β → Int × β
  get_rate : fwk_id_t → β → (Int × Nat) × β
  set_state : fwk_id_t → mod_clock_state → β → Int × β

/-- Backend state together with the chronological record of what the handler
did. -/
structure world (β : Type) where
  backend : β
  trace : List event
  deriving DecidableEq, Repr

/-- Record one event at the end of the trace. -/
def world.emit {β : Type} (w : world β) (e : event) : world β :=
  { w with trace := w.trace ++ [e] }

/-- The backend calls recorded in a trace. -/
def backend_calls (t : List event) : List event := t.filter event.is_backend

/-- The responses recorded in a trace. -/
def responses (t : List event) : List event := t.filter (fun e => !e.is_backend)

/-- Read the 32-bit word at word offset `i` of the payload. -/
def read_u32 (payload : List Nat) (i : Nat) : Option Nat :=
  (payload[i]?).map (· % 2 ^ 32)

/-- The 64-bit join of the rate-set handler:
`((uint64_t)rate_high << 32) | rate_low`. -/
def rate_join (rate_low rate_high : Nat) : Nat :=
  (((rate_high % 2 ^ 64) <<< 32) % 2 ^ 64) ||| rate_low

/-- The low word of the rate-get handler: `(uint32_t)(rate & 0xFFFFFFFF)`. -/
def rate_split_low (rate : Nat) : Nat := (rate &&& 0xFFFFFFFF) % 2 ^ 32

/-- The high word of the rate-get handler: `(uint32_t)(rate >> 32)`. -/
def rate_split_high (rate : Nat) : Nat := (rate >>> 32) % 2 ^ 32

/-- The `exit:` label shared by the handlers: send the response, return
`FWK_SUCCESS`. -/
def respond_exit {β : Type} (K : fwk_consts) (service_id : fwk_id_t) (r : response)
    (w : world β) : Option (Int × world β) :=
  some (K.FWK_SUCCESS, w.emit (.respond service_id r r.sizeof))

/-- The error-code `switch` of the rate-set handler, entered when
`status != FWK_SUCCESS`. -/
def rate_set_error_status (K : fwk_consts) (status : Int) : scmi_status :=
  if status = K.FWK_E_RANGE then .SCMI_OUT_OF_RANGE
  else if status = K.FWK_E_BUSY then .SCMI_BUSY
  else if status = K.FWK_E_SUPPORT then .SCMI_NOT_SUPPORTED
  else .SCMI_GENERIC_ERROR

/-! ## The handlers -/

/-- The handler `scmi_clock_rate_set_handler`. All three payload reads happen
before the clock id is checked; `flags` is never read. -/
def scmi_clock_rate_set_handler {β : Type} (K : fwk_consts) (ctx : scmi_clock_ctx)
    (api : mod_clock_api β) (service_id : fwk_id_t) (payload : List Nat)
    (w : world β) : Option (Int × world β) := do
  let clock_id ← read_u32 payload 1
  let rate_low ← read_u32 payload 2
  let rate_high ← read_u32 payload 3
  let rate := rate_join rate_low rate_high
  if clock_id ≥ ctx.clock_count then
    respond_exit K service_id (.status_only .SCMI_INVALID_PARAMETERS) w
  else
    let dev ← ctx.clock_devices[clock_id]?
    let clock_element_id := dev.element_id
    if fwk_id_is_equal clock_element_id K.FWK_ID_NONE then
      respond_exit K service_id (.status_only .SCMI_NOT_FOUND) w
    else
      let (status, b) :=
        api.set_rate clock_element_id rate .MOD_CLOCK_ROUND_MODE_NEAREST w.backend
      let w1 : world β :=
        { backend := b,
          trace := w.trace ++
            [.set_rate clock_element_id rate .MOD_CLOCK_ROUND_MODE_NEAREST] }
      if status ≠ K.FWK_SUCCESS then
        respond_exit K service_id (.status_only (rate_set_error_status K status)) w1
      else
        respond_exit K service_id (.status_only .SCMI_SUCCESS) w1

/-- The handler `scmi_clock_rate_get_handler`. The rate fields of `return_values` are
assigned on the success path only. -/
def scmi_clock_rate_get_handler {β : Type} (K : fwk_consts) (ctx : scmi_clock_ctx)
    (api : mod_clock_api β) (service_id : fwk_id_t) (payload : List Nat)
    (w : world β) : Option (Int × world β) := do
  let clock_id ← read_u32 payload 0
  if clock_id ≥ ctx.clock_count then
    respond_exit K service_id (.rate_get .SCMI_INVALID_PARAMETERS none none) w
  else
    let dev ← ctx.clock_devices[clock_id]?
    let clock_element_id := dev.element_id
    if fwk_id_is_equal clock_element_id K.FWK_ID_NONE then
      respond_exit K service_id (.rate_get .SCMI_NOT_FOUND none none) w
    else
      let ((status, stored), b) := api.get_rate clock_element_id w.backend
      let rate := stored % 2 ^ 64
      let w1 : world β :=
        { backend := b, trace := w.trace ++ [.get_rate clock_element_id] }
      if status ≠ K.FWK_SUCCESS then
        respond_exit K service_id (.rate_get .SCMI_HARDWARE_ERROR none none) w1
      else
        respond_exit K service_id
          (.rate_get .SCMI_SUCCESS (some (rate_split_low rate))
            (some (rate_split_high rate))) w1

/-- The handler `scmi_clock_config_set_handler`. -/
def scmi_clock_config_set_handler {β : Type} (K : fwk_consts) (ctx : scmi_clock_ctx)
    (api : mod_clock_api β) (service_id : fwk_id_t) (payload : List Nat)
    (w : world β) : Option (Int × world β) := do
  let clock_id ← read_u32 payload 0
  let attributes ← read_u32 payload 1
  let enable : Bool := decide ((attributes &&& 0x1) ≠ 0)
  if clock_id ≥ ctx.clock_count then
    respond_exit K service_id (.status_only .SCMI_INVALID_PARAMETERS) w
  else
    let dev ← ctx.clock_devices[clock_id]?
    let clock_element_id := dev.element_id
    if fwk_id_is_equal clock_element_id K.FWK_ID_NONE then
      respond_exit K service_id (.status_only .SCMI_NOT_FOUND) w
    else
      let state : mod_clock_state :=
        if enable then .MOD_CLOCK_STATE_RUNNING else .MOD_CLOCK_STATE_STOPPED
      let (status, b) := api.set_state clock_element_id state w.backend
      let w1 : world β :=
        { backend := b, trace := w.trace ++ [.set_state clock_element_id state] }
      if status ≠ K.FWK_SUCCESS then
        respond_exit K service_id (.status_only .SCMI_HARDWARE_ERROR) w1
      else
        respond_exit K service_id (.status_only .SCMI_SUCCESS) w1

/-- The two query handlers the dispatcher calls but the source tree does not
define (`scmi_clock_attributes_handler`, `scmi_clock_describe_rates_handler`);
they are parameters of the dispatcher. -/
structure query_handlers (β : Type) where
  scmi_clock_attributes_handler :
    fwk_id_t → List Nat → world β → Option (Int × world β)
  scmi_clock_describe_rates_handler :
    fwk_id_t → List Nat → world β → Option (Int × world β)

/-- The dispatcher `scmi_clock_message_handler`: the `switch` on `message_id`. Neither
`protocol_id` nor `payload_size` is read. -/
def scmi_clock_message_handler {β : Type} (K : fwk_consts) (ctx : scmi_clock_ctx)
    (api : mod_clock_api β) (q : query_handlers β) (protocol_id service_id : fwk_id_t)
    (payload : List Nat) (payload_size : Nat) (message_id : Nat)
    (w : world β) : Option (Int × world β) :=
  if message_id = SCMI_CLOCK_RATE_SET then
    scmi_clock_rate_set_handler K ctx api service_id payload w
  else if message_id = SCMI_CLOCK_RATE_GET then
    scmi_clock_rate_get_handler K ctx api service_id payload w
  else if message_id = SCMI_CLOCK_CONFIG_SET then
    scmi_clock_config_set_handler K ctx api service_id payload w
  else if message_id = SCMI_CLOCK_ATTRIBUTES then
    q.scmi_clock_attributes_handler service_id payload w
  else if message_id = SCMI_CLOCK_DESCRIBE_RATES then
    q.scmi_clock_describe_rates_handler service_id payload w
  else
    some (K.FWK_SUCCESS,
      w.emit (.respond service_id (.status_only .SCMI_NOT_SUPPORTED)
        (response.status_only .SCMI_NOT_SUPPORTED).sizeof))

/-! ## The module as a state machine -/

/-- Number of 32-bit words a command's handler reads from the payload: the four
words of `struct scmi_clock_rate_set_a2p`, the single `clock_id` word of rate
get, the two words of `struct scmi_clock_config_set_a2p`; the `default` branch
reads none. -/
def request_words (message_id : Nat) : Nat :=
  if message_id = SCMI_CLOCK_RATE_SET then 4
  else if message_id = SCMI_CLOCK_RATE_GET then 1
  else if message_id = SCMI_CLOCK_CONFIG_SET then 2
  else 0

/-- A concrete choice of the framework constants. -/
def demo_consts : fwk_consts :=
  { FWK_SUCCESS := 0, FWK_E_RANGE := -6, FWK_E_BUSY := -12, FWK_E_SUPPORT := -10,
    FWK_ID_NONE := 0 }

/-- A context with sixteen table entries: indices 0 to 5 are configured (element
ids 100 to 105), indices 6 to 15 hold the absent sentinel. -/
def demo_ctx : scmi_clock_ctx :=
  { scmi_service_id := 1,
    clock_count := 16,
    clock_devices :=
      [⟨100, true⟩, ⟨101, true⟩, ⟨102, true⟩, ⟨103, true⟩, ⟨104, true⟩, ⟨105, false⟩,
       ⟨0, false⟩, ⟨0, false⟩, ⟨0, false⟩, ⟨0, false⟩, ⟨0, false⟩,
       ⟨0, false⟩, ⟨0, false⟩, ⟨0, false⟩, ⟨0, false⟩, ⟨0, false⟩] }

/-- A backend stub whose state counts the calls it received; every operation
returns the status `r`, and `get_rate` stores `rate`. -/
def stub_api (r : Int) (rate : Nat) : mod_clock_api Nat :=
  { set_rate := fun _ _ _ n => (r, n + 1),
    get_rate := fun _ n => ((r, rate), n + 1),
    set_state := fun _ _ n => (r, n + 1) }

/-- A backend stub like `stub_api` whose operations disagree: `get_rate` returns
the status `r_get` (and stores 0), `set_rate` and `set_state` return `r_set`. -/
def split_api (r_get r_set : Int) : mod_clock_api Nat :=
  { set_rate := fun _ _ _ n => (r_set, n + 1),
    get_rate := fun _ n => ((r_get, 0), n + 1),
    set_state := fun _ _ n => (r_set, n + 1) }

/-- Query handlers that do nothing but return success. -/
def stub_queries : query_handlers Nat :=
  { scmi_clock_attributes_handler := fun _ _ w => some (0, w),
    scmi_clock_describe_rates_handler := fun _ _ w => some (0, w) }

/-! ## Driver side (`scmi_clock_example.c`)

The driver is kernel code for a 64-bit target: `unsigned long` and `u64` are
64-bit unsigned words, `long` is a 64-bit two's-complement integer and signed
arithmetic wraps. -/

/-- Two's-complement wrap of an integer into the range of a 64-bit `long`. -/
def wrap_long (x : Int) : Int := (x + 2 ^ 63) % 2 ^ 64 - 2 ^ 63

/-- The conversion `(long)x` of an `unsigned long`. -/
def to_long (x : Nat) : Int := wrap_long (x : Int)

/-- The conversion of a `long` to `unsigned long`. -/
def to_ulong (x : Int) : Nat := (x % 2 ^ 64).toNat

/-- The kernel's `abs()` on a `long`: `x < 0 ? -x : x`. -/
def abs_long (x : Int) : Int := if x < 0 then wrap_long (-x) else x

/-- The value `abs((long)rate - (long)r)` as stored in the `unsigned long`
variables `diff` and `new_diff`. -/
def rate_distance (rate r : Nat) : Nat :=
  to_ulong (abs_long (wrap_long (to_long rate - to_long r)))

/-- The fields of `struct scmi_clock_info` that the driver reads (the struct is
declared in `linux/scmi_protocol.h`, outside the source tree): the flag
`rate_discrete`, the list `list.num_rates` / `list.rates` and the range
`range.min_rate` / `range.max_rate` / `range.step_size`. -/
structure scmi_clock_info where
  rate_discrete : Bool
  num_rates : Int
  rates : List Nat
  min_rate : Nat
  max_rate : Nat
  step_size : Nat
  deriving DecidableEq, Repr

/-- The `for` loop of `scmi_clk_round_rate`, with `n` iterations left to run, the
loop index `i` and the current `best_rate` and `diff`; a read of `rates` past
its end has no defined behaviour. -/
def round_rate_loop (rates : List Nat) (rate : Nat) :
    Nat → Nat → Nat → Nat → Option Nat
  | 0, _, best_rate, _ => some best_rate
  | n + 1, i, best_rate, diff =>
    match rates[i]? with
    | none => none
    | some r =>
      let new_diff := rate_distance rate (r % 2 ^ 64)
      if new_diff < diff then
        round_rate_loop rates rate n (i + 1) (r % 2 ^ 64) new_diff
      else
        round_rate_loop rates rate n (i + 1) best_rate diff

/-- The clock operation `scmi_clk_round_rate`. The argument `info` is what
`clk->ops->info_get` returned (`none` for a null pointer); the result is the
`long` the function returns. The loop runs for `i = 1, ..., num_rates - 1`. -/
def scmi_clk_round_rate (info : Option scmi_clock_info) (rate : Nat) : Option Int :=
  match info with
  | none => some (to_long rate)
  | some info =>
    if info.rate_discrete then
      match info.rates[0]? with
      | none => none
      | some r0 =>
        let best_rate := r0 % 2 ^ 64
        let diff := rate_distance rate best_rate
        (round_rate_loop info.rates rate (info.num_rates - 1).toNat 1 best_rate
          diff).map to_long
    else
      let rate1 :=
        if rate < info.min_rate then info.min_rate % 2 ^ 64
        else if rate > info.max_rate then info.max_rate % 2 ^ 64
        else rate
      some (to_long rate1)

/-- The per-clock data `struct scmi_clk_data`: `hw` stands for the embedded
`struct clk_hw` whose address `scmi_clk_of_xlate` returns, `id` is the SCMI
clock id. -/
structure scmi_clk_data where
  hw : Nat
  id : Nat
  deriving DecidableEq, Repr

/-- The provider `struct scmi_clk_provider`: the array `clks` of pointers (a null
slot is `none`) and the `int num_clocks`. -/
structure scmi_clk_provider where
  clks : List (Option scmi_clk_data)
  num_clocks : Int
  deriving DecidableEq, Repr

/-- The clock specifier `struct of_phandle_args` (`linux/of.h`): the `int
args_count` and the `uint32_t args[]` array. -/
structure of_phandle_args where
  args_count : Int
  args : List Nat
  deriving DecidableEq, Repr

/-- What `scmi_clk_of_xlate` returns: an error pointer `ERR_PTR(error)`, or the
address of the `hw` member of a clock. -/
inductive xlate_result where
  | ERR_PTR (error : Int)
  | hw_of (hw : Nat)
  deriving DecidableEq, Repr

/-- The translation function `scmi_clk_of_xlate`. The errno constant `EINVAL`
comes from a kernel header and is a parameter. In `clk_id >= num_clocks` the
`int` is converted to the unsigned type of `clk_id`; the right operand of `||`
is evaluated only when the left one is false. -/
def scmi_clk_of_xlate (EINVAL : Int) (clkspec : of_phandle_args)
    (provider : scmi_clk_provider) : Option xlate_result :=
  if clkspec.args_count ≠ 1 then some (.ERR_PTR (-EINVAL))
  else
    match clkspec.args[0]? with
    | none => none
    | some a =>
      let clk_id := a % 2 ^ 32
      if clk_id ≥ (provider.num_clocks % 2 ^ 32).toNat then
        some (.ERR_PTR (-EINVAL))
      else
        match provider.clks[clk_id]? with
        | none => none
        | some none => some (.ERR_PTR (-EINVAL))
        | some (some sclk) => some (.hw_of sclk.hw)

/-! ## Out-of-range and absent clock indices -/

/-- C1, as the spec states it, fails: a rate-set request for `clock_id = 99`
against a table of sixteen entries is answered with `SCMI_INVALID_PARAMETERS`,
not with `SCMI_NOT_FOUND`. -/
theorem c1_out_of_range_is_not_NotFound :
    scmi_clock_rate_set_handler demo_consts demo_ctx (stub_api 0 0) 7
        [0, 99, 100000000, 0] ⟨0, []⟩
      = some (0, ⟨0, [.respond 7 (.status_only .SCMI_INVALID_PARAMETERS) 4]⟩) ∧
    scmi_clock_rate_set_handler demo_consts demo_ctx (stub_api 0 0) 7
        [0, 99, 100000000, 0] ⟨0, []⟩
      ≠ some (0, ⟨0, [.respond 7 (.status_only .SCMI_NOT_FOUND) 4]⟩) := by
  decide

/-- C1 (amended): when `clock_id >= clock_count`, each of the three handlers
sends exactly one response, whose status is `SCMI_INVALID_PARAMETERS`, calls no
backend operation and leaves the backend state as it was. -/
theorem c1_out_of_range_invalid_parameters {β : Type} (K : fwk_consts)
    (ctx : scmi_clock_ctx) (api : mod_clock_api β)
    (service_id flags clock_id rate_low rate_high attributes : Nat)
    (rest : List Nat) (w : world β)
    (hid : clock_id < 2 ^ 32) (hrange : ctx.clock_count ≤ clock_id) :
    scmi_clock_rate_set_handler K ctx api service_id
        (flags :: clock_id :: rate_low :: rate_high :: rest) w
      = some (K.FWK_SUCCESS,
          { backend := w.backend,
            trace := w.trace ++
              [.respond service_id (.status_only .SCMI_INVALID_PARAMETERS) 4] }) ∧
    scmi_clock_rate_get_handler K ctx api service_id (clock_id :: rest) w
      = some (K.FWK_SUCCESS,
          { backend := w.backend,
            trace := w.trace ++
              [.respond service_id (.rate_get .SCMI_INVALID_PARAMETERS none none) 12] }) ∧
    scmi_clock_config_set_handler K ctx api service_id
        (clock_id :: attributes :: rest) w
      = some (K.FWK_SUCCESS,
          { backend := w.backend,
            trace := w.trace ++
              [.respond service_id (.status_only .SCMI_INVALID_PARAMETERS) 4] }) := by
  have hm : clock_id % 4294967296 = clock_id := Nat.mod_eq_of_lt hid
  refine ⟨?_, ?_, ?_⟩
  · simp [scmi_clock_rate_set_handler, read_u32, respond_exit, world.emit,
      response.sizeof, hm, hrange]
  · simp [scmi_clock_rate_get_handler, read_u32, respond_exit, world.emit,
      response.sizeof, hm, hrange]
  · simp [scmi_clock_config_set_handler, read_u32, respond_exit, world.emit,
      response.sizeof, hm, hrange]

/-- The amended C1 at the spec's scenario 4: rate set, `clock_id = 99`, sixteen
table entries. -/
theorem c1_out_of_range_invalid_parameters_witness :
    ((99 : Nat) < 2 ^ 32 ∧ demo_ctx.clock_count ≤ 99) ∧
    scmi_clock_rate_set_handler demo_consts demo_ctx (stub_api 0 0) 7
        [0, 99, 100000000, 0] ⟨0, []⟩
      = some (0, ⟨0, [.respond 7 (.status_only .SCMI_INVALID_PARAMETERS) 4]⟩) :=
  ⟨by decide,
   (c1_out_of_range_invalid_parameters demo_consts demo_ctx (stub_api 0 0)
      7 0 99 100000000 0 1 [] ⟨0, []⟩ (by decide) (by decide)).1⟩

/-- C2: when `clock_id < clock_count` and the table entry holds the absent
sentinel `FWK_ID_NONE`, each of the three handlers sends exactly one response,
whose status is `SCMI_NOT_FOUND`, calls no backend operation and leaves the
backend state as it was. -/
theorem c2_absent_clock_not_found {β : Type} (K : fwk_consts)
    (ctx : scmi_clock_ctx) (api : mod_clock_api β)
    (service_id flags clock_id rate_low rate_high attributes : Nat)
    (rest : List Nat) (w : world β) (dev : mod_scmi_clock_device)
    (hid : clock_id < 2 ^ 32) (hlt : clock_id < ctx.clock_count)
    (hdev : ctx.clock_devices[clock_id]? = some dev)
    (hnone : dev.element_id = K.FWK_ID_NONE) :
    scmi_clock_rate_set_handler K ctx api service_id
        (flags :: clock_id :: rate_low :: rate_high :: rest) w
      = some (K.FWK_SUCCESS,
          { backend := w.backend,
            trace := w.trace ++
              [.respond service_id (.status_only .SCMI_NOT_FOUND) 4] }) ∧
    scmi_clock_rate_get_handler K ctx api service_id (clock_id :: rest) w
      = some (K.FWK_SUCCESS,
          { backend := w.backend,
            trace := w.trace ++
              [.respond service_id (.rate_get .SCMI_NOT_FOUND none none) 12] }) ∧
    scmi_clock_config_set_handler K ctx api service_id
        (clock_id :: attributes :: rest) w
      = some (K.FWK_SUCCESS,
          { backend := w.backend,
            trace := w.trace ++
              [.respond service_id (.status_only .SCMI_NOT_FOUND) 4] }) := by
  have hm : clock_id % 4294967296 = clock_id := Nat.mod_eq_of_lt hid
  refine ⟨?_, ?_, ?_⟩
  · simp [scmi_clock_rate_set_handler, read_u32, respond_exit, world.emit,
      response.sizeof, fwk_id_is_equal, hm, hlt, hdev, hnone]
  · simp [scmi_clock_rate_get_handler, read_u32, respond_exit, world.emit,
      response.sizeof, fwk_id_is_equal, hm, hlt, hdev, hnone]
  · simp [scmi_clock_config_set_handler, read_u32, respond_exit, world.emit,
      response.sizeof, fwk_id_is_equal, hm, hlt, hdev, hnone]

/-- C2 at index 6 of the sixteen-entry table, an entry that holds the sentinel. -/
theorem c2_absent_clock_not_found_witness :
    ((6 : Nat) < 2 ^ 32 ∧ 6 < demo_ctx.clock_count ∧
      demo_ctx.clock_devices[6]? = some ⟨0, false⟩ ∧
      (⟨0, false⟩ : mod_scmi_clock_device).element_id = demo_consts.FWK_ID_NONE) ∧
    scmi_clock_rate_get_handler demo_consts demo_ctx (stub_api 0 0) 7 [6] ⟨0, []⟩
      = some (0, ⟨0, [.respond 7 (.rate_get .SCMI_NOT_FOUND none none) 12]⟩) :=
  ⟨by decide,
   (c2_absent_clock_not_found demo_consts demo_ctx (stub_api 0 0)
      7 0 6 0 0 0 [] ⟨0, []⟩ ⟨0, false⟩ (by decide) (by decide) (by decide)
      (by decide)).2.1⟩

/-! ## Word arithmetic of the 64-bit rate -/

/-- On two 32-bit words the join is `rate_low + rate_high * 2 ^ 32`. -/
theorem rate_join_eq (rate_low rate_high : Nat) (hlo : rate_low < 2 ^ 32)
    (hhi : rate_high < 2 ^ 32) :
    rate_join rate_low rate_high = rate_low + rate_high * 2 ^ 32 := by
  unfold rate_join
  have h1 : rate_high % 2 ^ 64 = rate_high := Nat.mod_eq_of_lt (by omega)
  have h2 : rate_high * 2 ^ 32 % 2 ^ 64 = rate_high * 2 ^ 32 :=
    Nat.mod_eq_of_lt (by omega)
  rw [h1, Nat.shiftLeft_eq, h2, Nat.mul_comm, ← Nat.mul_add_lt_is_or hlo]
  omega

/-- The low word of the split is the remainder modulo `2 ^ 32`. -/
theorem rate_split_low_eq (rate : Nat) : rate_split_low rate = rate % 2 ^ 32 := by
  unfold rate_split_low
  have h : rate &&& 0xFFFFFFFF = rate % 2 ^ 32 :=
    Nat.and_pow_two_sub_one_eq_mod rate 32
  rw [h, Nat.mod_mod]

/-- The high word of the split of a 64-bit value is the quotient by `2 ^ 32`. -/
theorem rate_split_high_eq (rate : Nat) (h : rate < 2 ^ 64) :
    rate_split_high rate = rate / 2 ^ 32 := by
  unfold rate_split_high
  rw [Nat.shiftRight_eq_div_pow]
  exact Nat.mod_eq_of_lt (by omega)

/-! ## The path of a configured clock -/

/-- Rate set on a configured clock: one `set_rate` call, then one response whose
status comes from the backend's result. -/
theorem rate_set_configured {β : Type} (K : fwk_consts) (ctx : scmi_clock_ctx)
    (api : mod_clock_api β) (service_id flags clock_id rate_low rate_high : Nat)
    (rest : List Nat) (w : world β) (dev : mod_scmi_clock_device) (r : Int) (b : β)
    (hid : clock_id < 2 ^ 32) (hlo : rate_low < 2 ^ 32) (hhi : rate_high < 2 ^ 32)
    (hlt : clock_id < ctx.clock_count)
    (hdev : ctx.clock_devices[clock_id]? = some dev)
    (hcfg : dev.element_id ≠ K.FWK_ID_NONE)
    (hret : api.set_rate dev.element_id (rate_join rate_low rate_high)
        .MOD_CLOCK_ROUND_MODE_NEAREST w.backend = (r, b)) :
    scmi_clock_rate_set_handler K ctx api service_id
        (flags :: clock_id :: rate_low :: rate_high :: rest) w
      = some (K.FWK_SUCCESS,
          { backend := b,
            trace := w.trace ++
              [.set_rate dev.element_id (rate_join rate_low rate_high)
                  .MOD_CLOCK_ROUND_MODE_NEAREST,
               .respond service_id
                  (.status_only (if r = K.FWK_SUCCESS then .SCMI_SUCCESS
                    else rate_set_error_status K r)) 4] }) := by
  have hm : clock_id % 4294967296 = clock_id := Nat.mod_eq_of_lt hid
  have hml : rate_low % 4294967296 = rate_low := Nat.mod_eq_of_lt hlo
  have hmh : rate_high % 4294967296 = rate_high := Nat.mod_eq_of_lt hhi
  by_cases hr : r = K.FWK_SUCCESS <;>
    simp [scmi_clock_rate_set_handler, read_u32, respond_exit, world.emit,
      response.sizeof, fwk_id_is_equal, hm, hml, hmh, hlt, hdev, hcfg, hret, hr]

/-- Rate get on a configured clock: one `get_rate` call, then one response. -/
theorem rate_get_configured {β : Type} (K : fwk_consts) (ctx : scmi_clock_ctx)
    (api : mod_clock_api β) (service_id clock_id : Nat)
    (rest : List Nat) (w : world β) (dev : mod_scmi_clock_device) (r : Int)
    (stored : Nat) (b : β)
    (hid : clock_id < 2 ^ 32) (hlt : clock_id < ctx.clock_count)
    (hdev : ctx.clock_devices[clock_id]? = some dev)
    (hcfg : dev.element_id ≠ K.FWK_ID_NONE)
    (hret : api.get_rate dev.element_id w.backend = ((r, stored), b)) :
    scmi_clock_rate_get_handler K ctx api service_id (clock_id :: rest) w
      = some (K.FWK_SUCCESS,
          { backend := b,
            trace := w.trace ++
              [.get_rate dev.element_id,
               .respond service_id
                  (if r = K.FWK_SUCCESS then
                    .rate_get .SCMI_SUCCESS
                      (some (rate_split_low (stored % 2 ^ 64)))
                      (some (rate_split_high (stored % 2 ^ 64)))
                   else .rate_get .SCMI_HARDWARE_ERROR none none) 12] }) := by
  have hm : clock_id % 4294967296 = clock_id := Nat.mod_eq_of_lt hid
  by_cases hr : r = K.FWK_SUCCESS <;>
    simp [scmi_clock_rate_get_handler, read_u32, respond_exit, world.emit,
      response.sizeof, fwk_id_is_equal, hm, hlt, hdev, hcfg, hret, hr]

/-- Config set on a configured clock: one `set_state` call, then one response. -/
theorem config_set_configured {β : Type} (K : fwk_consts) (ctx : scmi_clock_ctx)
    (api : mod_clock_api β) (service_id clock_id attributes : Nat)
    (rest : List Nat) (w : world β) (dev : mod_scmi_clock_device) (r : Int) (b : β)
    (hid : clock_id < 2 ^ 32) (hattr : attributes < 2 ^ 32)
    (hlt : clock_id < ctx.clock_count)
    (hdev : ctx.clock_devices[clock_id]? = some dev)
    (hcfg : dev.element_id ≠ K.FWK_ID_NONE)
    (hret : api.set_state dev.element_id
        (if attributes % 2 = 1 then .MOD_CLOCK_STATE_RUNNING
         else .MOD_CLOCK_STATE_STOPPED) w.backend = (r, b)) :
    scmi_clock_config_set_handler K ctx api service_id
        (clock_id :: attributes :: rest) w
      = some (K.FWK_SUCCESS,
          { backend := b,
            trace := w.trace ++
              [.set_state dev.element_id
                  (if attributes % 2 = 1 then .MOD_CLOCK_STATE_RUNNING
                   else .MOD_CLOCK_STATE_STOPPED),
               .respond service_id
                  (.status_only (if r = K.FWK_SUCCESS then .SCMI_SUCCESS
                    else .SCMI_HARDWARE_ERROR)) 4] }) := by
  have hm : clock_id % 4294967296 = clock_id := Nat.mod_eq_of_lt hid
  have hma : attributes % 4294967296 = attributes := Nat.mod_eq_of_lt hattr
  have hbit : attributes % 2 = 0 ∨ attributes % 2 = 1 := by omega
  rcases hbit with h0 | h1
  · simp only [h0, Nat.zero_ne_one, if_false] at hret ⊢
    by_cases hr : r = K.FWK_SUCCESS <;>
      simp [scmi_clock_config_set_handler, read_u32, respond_exit, world.emit,
        response.sizeof, fwk_id_is_equal, hm, hma, hlt, hdev, hcfg, hret, hr, h0]
  · simp only [h1, if_true] at hret ⊢
    by_cases hr : r = K.FWK_SUCCESS <;>
      simp [scmi_clock_config_set_handler, read_u32, respond_exit, world.emit,
        response.sizeof, fwk_id_is_equal, hm, hma, hlt, hdev, hcfg, hret, hr, h1]

/-! ## Translation of the backend result -/

/-- C3: on a configured clock the rate-set handler answers the backend result
`r` of `set_rate` with exactly one status `s`: `SCMI_SUCCESS` when `r` is the
success code, `SCMI_OUT_OF_RANGE` for `FWK_E_RANGE`, `SCMI_BUSY` for
`FWK_E_BUSY`, `SCMI_NOT_SUPPORTED` for `FWK_E_SUPPORT`, `SCMI_GENERIC_ERROR` for
every other code; no code other than success yields `SCMI_SUCCESS`, and the
status is determined by `r` for every integer `r`. -/
theorem c3_rate_set_status_translation {β : Type} (K : fwk_consts)
    (ctx : scmi_clock_ctx) (api : mod_clock_api β)
    (service_id flags clock_id rate_low rate_high : Nat)
    (rest : List Nat) (w : world β) (dev : mod_scmi_clock_device) (r : Int) (b : β)
    (hK : K.distinct)
    (hid : clock_id < 2 ^ 32) (hlo : rate_low < 2 ^ 32) (hhi : rate_high < 2 ^ 32)
    (hlt : clock_id < ctx.clock_count)
    (hdev : ctx.clock_devices[clock_id]? = some dev)
    (hcfg : dev.element_id ≠ K.FWK_ID_NONE)
    (hret : api.set_rate dev.element_id (rate_join rate_low rate_high)
        .MOD_CLOCK_ROUND_MODE_NEAREST w.backend = (r, b)) :
    ∃ s : scmi_status,
      scmi_clock_rate_set_handler K ctx api service_id
          (flags :: clock_id :: rate_low :: rate_high :: rest) w
        = some (K.FWK_SUCCESS,
            { backend := b,
              trace := w.trace ++
                [.set_rate dev.element_id (rate_join rate_low rate_high)
                    .MOD_CLOCK_ROUND_MODE_NEAREST,
                 .respond service_id (.status_only s) 4] }) ∧
      (r = K.FWK_SUCCESS → s = .SCMI_SUCCESS) ∧
      (r = K.FWK_E_RANGE → s = .SCMI_OUT_OF_RANGE) ∧
      (r = K.FWK_E_BUSY → s = .SCMI_BUSY) ∧
      (r = K.FWK_E_SUPPORT → s = .SCMI_NOT_SUPPORTED) ∧
      (r ≠ K.FWK_SUCCESS → r ≠ K.FWK_E_RANGE → r ≠ K.FWK_E_BUSY →
        r ≠ K.FWK_E_SUPPORT → s = .SCMI_GENERIC_ERROR) ∧
      (r ≠ K.FWK_SUCCESS → s ≠ .SCMI_SUCCESS) ∧
      (∀ s' : scmi_status,
        scmi_clock_rate_set_handler K ctx api service_id
            (flags :: clock_id :: rate_low :: rate_high :: rest) w
          = some (K.FWK_SUCCESS,
              { backend := b,
                trace := w.trace ++
                  [.set_rate dev.element_id (rate_join rate_low rate_high)
                      .MOD_CLOCK_ROUND_MODE_NEAREST,
                   .respond service_id (.status_only s') 4] }) → s' = s) := by
  have hrun := rate_set_configured K ctx api service_id flags clock_id rate_low
    rate_high rest w dev r b hid hlo hhi hlt hdev hcfg hret
  obtain ⟨h1, h2, h3, h4, h5, h6⟩ := hK
  refine ⟨_, hrun, ?_, ?_, ?_, ?_, ?_, ?_, ?_⟩
  · intro h; simp [h]
  · intro h; subst h; simp [h1, rate_set_error_status]
  · intro h; subst h; simp [h2, rate_set_error_status, Ne.symm h4]
  · intro h; subst h; simp [h3, rate_set_error_status, Ne.symm h5, Ne.symm h6]
  · intro a b c d; simp [a, b, c, d, rate_set_error_status]
  · intro a
    simp only [a, if_false]
    unfold rate_set_error_status
    split_ifs <;> simp
  · intro s' hs'
    rw [hrun] at hs'
    simp at hs'
    exact hs'.symm

/-- C3 on clock 0 of the sixteen-entry table with a backend that reports the
range error: the status is `SCMI_OUT_OF_RANGE`. -/
theorem c3_rate_set_status_translation_witness :
    (demo_consts.distinct ∧ (0 : Nat) < 2 ^ 32 ∧ (100000000 : Nat) < 2 ^ 32 ∧
      0 < demo_ctx.clock_count ∧ demo_ctx.clock_devices[0]? = some ⟨100, true⟩ ∧
      (⟨100, true⟩ : mod_scmi_clock_device).element_id ≠ demo_consts.FWK_ID_NONE ∧
      (stub_api (-6) 0).set_rate 100 (rate_join 100000000 0)
        .MOD_CLOCK_ROUND_MODE_NEAREST 0 = (-6, 1)) ∧
    ∃ s : scmi_status,
      scmi_clock_rate_set_handler demo_consts demo_ctx (stub_api (-6) 0) 7
          [0, 0, 100000000, 0] ⟨0, []⟩
        = some (0, ⟨1, [.set_rate 100 (rate_join 100000000 0)
                          .MOD_CLOCK_ROUND_MODE_NEAREST,
                        .respond 7 (.status_only s) 4]⟩) ∧
      s = .SCMI_OUT_OF_RANGE :=
  ⟨by decide,
   (c3_rate_set_status_translation demo_consts demo_ctx (stub_api (-6) 0)
      7 0 0 100000000 0 [] ⟨0, []⟩ ⟨100, true⟩ (-6) 1 (by decide) (by decide)
      (by decide) (by decide) (by decide) (by decide) (by decide) rfl).imp
     fun _ h => ⟨h.1, h.2.2.1 rfl⟩⟩

/-- C4, as the spec states it, fails: with a backend that reports busy on clock
2, the rate-get handler and the config-set handler answer
`SCMI_HARDWARE_ERROR`, while the rate-set handler answers `SCMI_BUSY` for the
same backend result. -/
theorem c4_busy_is_reported_as_hardware_error :
    scmi_clock_rate_get_handler demo_consts demo_ctx (stub_api (-12) 0) 7
        [2] ⟨0, []⟩
      = some (0, ⟨1, [.get_rate 102,
                      .respond 7 (.rate_get .SCMI_HARDWARE_ERROR none none) 12]⟩) ∧
    scmi_clock_config_set_handler demo_consts demo_ctx (stub_api (-12) 0) 7
        [2, 1] ⟨0, []⟩
      = some (0, ⟨1, [.set_state 102 .MOD_CLOCK_STATE_RUNNING,
                      .respond 7 (.status_only .SCMI_HARDWARE_ERROR) 4]⟩) ∧
    scmi_clock_rate_set_handler demo_consts demo_ctx (stub_api (-12) 0) 7
        [0, 2, 0, 0] ⟨0, []⟩
      = some (0, ⟨1, [.set_rate 102 0 .MOD_CLOCK_ROUND_MODE_NEAREST,
                      .respond 7 (.status_only .SCMI_BUSY) 4]⟩) := by
  decide

/-- C4 (amended): on a configured clock each of the two handlers stands on its
own. Whenever the backend result of `get_rate` is not the success code, the
rate-get handler answers `SCMI_HARDWARE_ERROR` after that single backend call,
whatever the failure code is and whatever `set_state` would do; whenever the
backend result of `set_state` is not the success code, the config-set handler
answers `SCMI_HARDWARE_ERROR` after that single backend call, whatever the
failure code is and whatever `get_rate` would do. -/
theorem c4_get_and_config_failures_are_hardware_error {β : Type} (K : fwk_consts)
    (ctx : scmi_clock_ctx) (api : mod_clock_api β)
    (service_id clock_id : Nat)
    (rest : List Nat) (w : world β) (dev : mod_scmi_clock_device)
    (hid : clock_id < 2 ^ 32)
    (hlt : clock_id < ctx.clock_count)
    (hdev : ctx.clock_devices[clock_id]? = some dev)
    (hcfg : dev.element_id ≠ K.FWK_ID_NONE) :
    (∀ (r : Int) (stored : Nat) (b : β),
      api.get_rate dev.element_id w.backend = ((r, stored), b) →
      r ≠ K.FWK_SUCCESS →
      scmi_clock_rate_get_handler K ctx api service_id (clock_id :: rest) w
        = some (K.FWK_SUCCESS,
            { backend := b,
              trace := w.trace ++
                [.get_rate dev.element_id,
                 .respond service_id
                   (.rate_get .SCMI_HARDWARE_ERROR none none) 12] })) ∧
    (∀ (attributes : Nat) (r : Int) (b : β),
      attributes < 2 ^ 32 →
      api.set_state dev.element_id
        (if attributes % 2 = 1 then .MOD_CLOCK_STATE_RUNNING
         else .MOD_CLOCK_STATE_STOPPED) w.backend = (r, b) →
      r ≠ K.FWK_SUCCESS →
      scmi_clock_config_set_handler K ctx api service_id
          (clock_id :: attributes :: rest) w
        = some (K.FWK_SUCCESS,
            { backend := b,
              trace := w.trace ++
                [.set_state dev.element_id
                   (if attributes % 2 = 1 then .MOD_CLOCK_STATE_RUNNING
                    else .MOD_CLOCK_STATE_STOPPED),
                 .respond service_id (.status_only .SCMI_HARDWARE_ERROR) 4] })) := by
  constructor
  · intro r stored b hget hfail
    have hg := rate_get_configured K ctx api service_id clock_id rest w dev r stored
      b hid hlt hdev hcfg hget
    simp only [hfail, if_false] at hg
    exact hg
  · intro attributes r b hattr hset hfail
    have hs := config_set_configured K ctx api service_id clock_id attributes rest w
      dev r b hid hattr hlt hdev hcfg hset
    simp only [hfail, if_false] at hs
    exact hs

/-- The amended C4 on clock 2, one handler at a time: with a backend whose
`get_rate` reports busy while `set_state` succeeds, rate get answers
`SCMI_HARDWARE_ERROR`; with a backend whose `set_state` reports busy while
`get_rate` succeeds, config set answers `SCMI_HARDWARE_ERROR`. -/
theorem c4_get_and_config_failures_are_hardware_error_witness :
    ((2 : Nat) < 2 ^ 32 ∧ 2 < demo_ctx.clock_count ∧
      demo_ctx.clock_devices[2]? = some ⟨102, true⟩ ∧
      (⟨102, true⟩ : mod_scmi_clock_device).element_id ≠ demo_consts.FWK_ID_NONE ∧
      (split_api (-12) 0).get_rate 102 0 = ((-12, 0), 1) ∧
      (split_api (-12) 0).set_state 102 .MOD_CLOCK_STATE_RUNNING 0 = (0, 1) ∧
      (-12 : Int) ≠ demo_consts.FWK_SUCCESS ∧
      (1 : Nat) < 2 ^ 32 ∧
      (split_api 0 (-12)).get_rate 102 0 = ((0, 0), 1) ∧
      (split_api 0 (-12)).set_state 102 .MOD_CLOCK_STATE_RUNNING 0 = (-12, 1)) ∧
    scmi_clock_rate_get_handler demo_consts demo_ctx (split_api (-12) 0) 7
        [2] ⟨0, []⟩
      = some (0, ⟨1, [.get_rate 102,
                      .respond 7 (.rate_get .SCMI_HARDWARE_ERROR none none) 12]⟩) ∧
    scmi_clock_config_set_handler demo_consts demo_ctx (split_api 0 (-12)) 7
        [2, 1] ⟨0, []⟩
      = some (0, ⟨1, [.set_state 102 .MOD_CLOCK_STATE_RUNNING,
                      .respond 7 (.status_only .SCMI_HARDWARE_ERROR) 4]⟩) :=
  ⟨by decide,
   (c4_get_and_config_failures_are_hardware_error demo_consts demo_ctx
      (split_api (-12) 0) 7 2 [] ⟨0, []⟩ ⟨102, true⟩
      (by decide) (by decide) (by decide) (by decide)).1 (-12) 0 1 rfl (by decide),
   (c4_get_and_config_failures_are_hardware_error demo_consts demo_ctx
      (split_api 0 (-12)) 7 2 [] ⟨0, []⟩ ⟨102, true⟩
      (by decide) (by decide) (by decide) (by decide)).2 1 (-12) 1 (by decide) rfl
      (by decide)⟩

/-! ## Payload length -/

/-- C5, as the spec states it, fails: a rate-set message whose payload is five
words long and whose `payload_size` is 20, not 16, is not answered with
`SCMI_INVALID_PARAMETERS`; the clock is looked up, `set_rate` is called and the
status is `SCMI_SUCCESS`. -/
theorem c5_wrong_length_is_processed :
    (20 : Nat) ≠ 16 ∧
    scmi_clock_message_handler demo_consts demo_ctx (stub_api 0 0) stub_queries 0 7
        [0, 0, 100000000, 0, 0] 20 SCMI_CLOCK_RATE_SET ⟨0, []⟩
      = some (0, ⟨1, [.set_rate 100 100000000 .MOD_CLOCK_ROUND_MODE_NEAREST,
                      .respond 7 (.status_only .SCMI_SUCCESS) 4]⟩) := by
  decide

/-- C5 (amended): the message handler never reads `payload_size`. For each of
the three commands a payload that begins with the command's fixed-width request
is processed exactly as that request delivered with its exact width, whatever
`payload_size` says and whatever words follow: same response, same backend
calls. -/
theorem c5_payload_size_is_ignored {β : Type} (K : fwk_consts)
    (ctx : scmi_clock_ctx) (api : mod_clock_api β) (q : query_handlers β)
    (protocol_id service_id flags clock_id rate_low rate_high attributes : Nat)
    (rest : List Nat) (payload_size : Nat) (w : world β) :
    scmi_clock_message_handler K ctx api q protocol_id service_id
        (flags :: clock_id :: rate_low :: rate_high :: rest) payload_size
        SCMI_CLOCK_RATE_SET w
      = scmi_clock_message_handler K ctx api q protocol_id service_id
          [flags, clock_id, rate_low, rate_high] 16 SCMI_CLOCK_RATE_SET w ∧
    scmi_clock_message_handler K ctx api q protocol_id service_id
        (clock_id :: rest) payload_size SCMI_CLOCK_RATE_GET w
      = scmi_clock_message_handler K ctx api q protocol_id service_id
          [clock_id] 4 SCMI_CLOCK_RATE_GET w ∧
    scmi_clock_message_handler K ctx api q protocol_id service_id
        (clock_id :: attributes :: rest) payload_size SCMI_CLOCK_CONFIG_SET w
      = scmi_clock_message_handler K ctx api q protocol_id service_id
          [clock_id, attributes] 8 SCMI_CLOCK_CONFIG_SET w := by
  refine ⟨?_, ?_, ?_⟩
  · simp [scmi_clock_message_handler, scmi_clock_rate_set_handler, read_u32]
  · simp [scmi_clock_message_handler, scmi_clock_rate_get_handler, read_u32,
      SCMI_CLOCK_RATE_GET, SCMI_CLOCK_RATE_SET]
  · simp [scmi_clock_message_handler, scmi_clock_config_set_handler, read_u32,
      SCMI_CLOCK_CONFIG_SET, SCMI_CLOCK_RATE_GET, SCMI_CLOCK_RATE_SET]

/-! ## Rate set, rate get, config set on a configured clock -/

/-- C6: a rate-set request for a configured clock makes exactly one backend
call, `set_rate` with the clock's element id, the rate
`rate_low + rate_high * 2 ^ 32` and the round-to-nearest mode, whatever `flags`
holds; then one status-only response follows, and its status is `SCMI_SUCCESS`
when the backend returned success. -/
theorem c6_rate_set_calls_set_rate_once {β : Type} (K : fwk_consts)
    (ctx : scmi_clock_ctx) (api : mod_clock_api β)
    (service_id flags clock_id rate_low rate_high : Nat)
    (rest : List Nat) (w : world β) (dev : mod_scmi_clock_device) (r : Int) (b : β)
    (hid : clock_id < 2 ^ 32) (hlo : rate_low < 2 ^ 32) (hhi : rate_high < 2 ^ 32)
    (hlt : clock_id < ctx.clock_count)
    (hdev : ctx.clock_devices[clock_id]? = some dev)
    (hcfg : dev.element_id ≠ K.FWK_ID_NONE)
    (hret : api.set_rate dev.element_id (rate_low + rate_high * 2 ^ 32)
        .MOD_CLOCK_ROUND_MODE_NEAREST w.backend = (r, b)) :
    ∃ s : scmi_status,
      scmi_clock_rate_set_handler K ctx api service_id
          (flags :: clock_id :: rate_low :: rate_high :: rest) w
        = some (K.FWK_SUCCESS,
            { backend := b,
              trace := w.trace ++
                [.set_rate dev.element_id (rate_low + rate_high * 2 ^ 32)
                    .MOD_CLOCK_ROUND_MODE_NEAREST,
                 .respond service_id (.status_only s) 4] }) ∧
      (r = K.FWK_SUCCESS → s = .SCMI_SUCCESS) := by
  have hj := rate_join_eq rate_low rate_high hlo hhi
  rw [← hj] at hret ⊢
  refine ⟨_, rate_set_configured K ctx api service_id flags clock_id rate_low
    rate_high rest w dev r b hid hlo hhi hlt hdev hcfg hret, ?_⟩
  intro h
  simp [h]

/-- C6 at the spec's scenario 1: clock 0, `rate_low = 100000000`,
`rate_high = 0`, a backend that accepts. -/
theorem c6_rate_set_calls_set_rate_once_witness :
    ((0 : Nat) < 2 ^ 32 ∧ (100000000 : Nat) < 2 ^ 32 ∧
      0 < demo_ctx.clock_count ∧ demo_ctx.clock_devices[0]? = some ⟨100, true⟩ ∧
      (⟨100, true⟩ : mod_scmi_clock_device).element_id ≠ demo_consts.FWK_ID_NONE ∧
      (stub_api 0 0).set_rate 100 (100000000 + 0 * 2 ^ 32)
        .MOD_CLOCK_ROUND_MODE_NEAREST 0 = (0, 1)) ∧
    ∃ s : scmi_status,
      scmi_clock_rate_set_handler demo_consts demo_ctx (stub_api 0 0) 7
          [0, 0, 100000000, 0] ⟨0, []⟩
        = some (0, ⟨1, [.set_rate 100 (100000000 + 0 * 2 ^ 32)
                          .MOD_CLOCK_ROUND_MODE_NEAREST,
                        .respond 7 (.status_only s) 4]⟩) ∧
      s = .SCMI_SUCCESS :=
  ⟨by decide,
   (c6_rate_set_calls_set_rate_once demo_consts demo_ctx (stub_api 0 0)
      7 0 0 100000000 0 [] ⟨0, []⟩ ⟨100, true⟩ 0 1 (by decide) (by decide)
      (by decide) (by decide) (by decide) (by decide) rfl).imp
     fun _ h => ⟨h.1, h.2 rfl⟩⟩

/-- C7: a rate-get request for a configured clock whose `get_rate` succeeds with
the 64-bit rate `rate` is answered with status `SCMI_SUCCESS`,
`rate_low = rate % 2 ^ 32` and `rate_high = rate / 2 ^ 32`, and the two words
recompose to `rate`. -/
theorem c7_rate_get_success_splits_rate {β : Type} (K : fwk_consts)
    (ctx : scmi_clock_ctx) (api : mod_clock_api β) (service_id clock_id : Nat)
    (rest : List Nat) (w : world β) (dev : mod_scmi_clock_device)
    (rate : Nat) (b : β)
    (hid : clock_id < 2 ^ 32) (hlt : clock_id < ctx.clock_count)
    (hdev : ctx.clock_devices[clock_id]? = some dev)
    (hcfg : dev.element_id ≠ K.FWK_ID_NONE)
    (hrate : rate < 2 ^ 64)
    (hret : api.get_rate dev.element_id w.backend = ((K.FWK_SUCCESS, rate), b)) :
    scmi_clock_rate_get_handler K ctx api service_id (clock_id :: rest) w
      = some (K.FWK_SUCCESS,
          { backend := b,
            trace := w.trace ++
              [.get_rate dev.element_id,
               .respond service_id
                 (.rate_get .SCMI_SUCCESS (some (rate % 2 ^ 32))
                   (some (rate / 2 ^ 32))) 12] }) ∧
    rate % 2 ^ 32 + rate / 2 ^ 32 * 2 ^ 32 = rate := by
  have hg := rate_get_configured K ctx api service_id clock_id rest w dev
    K.FWK_SUCCESS rate b hid hlt hdev hcfg hret
  have hm : rate % 2 ^ 64 = rate := Nat.mod_eq_of_lt hrate
  rw [hm, rate_split_low_eq, rate_split_high_eq rate hrate] at hg
  simp only [if_true] at hg
  exact ⟨hg, by omega⟩

/-- C7 at the spec's scenario 2: clock 2, backend rate 1200000000. -/
theorem c7_rate_get_success_splits_rate_witness :
    ((2 : Nat) < 2 ^ 32 ∧ 2 < demo_ctx.clock_count ∧
      demo_ctx.clock_devices[2]? = some ⟨102, true⟩ ∧
      (⟨102, true⟩ : mod_scmi_clock_device).element_id ≠ demo_consts.FWK_ID_NONE ∧
      (1200000000 : Nat) < 2 ^ 64 ∧
      (stub_api 0 1200000000).get_rate 102 0
        = ((demo_consts.FWK_SUCCESS, 1200000000), 1)) ∧
    scmi_clock_rate_get_handler demo_consts demo_ctx (stub_api 0 1200000000) 7
        [2] ⟨0, []⟩
      = some (0, ⟨1, [.get_rate 102,
                      .respond 7
                        (.rate_get .SCMI_SUCCESS (some 1200000000) (some 0)) 12]⟩) :=
  ⟨by decide,
   (c7_rate_get_success_splits_rate demo_consts demo_ctx (stub_api 0 1200000000)
      7 2 [] ⟨0, []⟩ ⟨102, true⟩ 1200000000 1 (by decide) (by decide) (by decide)
      (by decide) (by decide) rfl).1⟩

/-- C8: the join of the rate-set handler and the split of the rate-get handler
are inverse to each other: splitting the join of two 32-bit words gives the two
words back, and joining the split of a 64-bit rate gives the rate back. -/
theorem c8_rate_split_join_roundtrip (rate_low rate_high rate : Nat)
    (hlo : rate_low < 2 ^ 32) (hhi : rate_high < 2 ^ 32) (hrate : rate < 2 ^ 64) :
    rate_split_low (rate_join rate_low rate_high) = rate_low ∧
    rate_split_high (rate_join rate_low rate_high) = rate_high ∧
    rate_join (rate_split_low rate) (rate_split_high rate) = rate := by
  have hj := rate_join_eq rate_low rate_high hlo hhi
  have hjlt : rate_join rate_low rate_high < 2 ^ 64 := by omega
  have hsl : rate_split_low rate < 2 ^ 32 := by
    rw [rate_split_low_eq]; exact Nat.mod_lt _ (by norm_num)
  have hsh : rate_split_high rate < 2 ^ 32 := by
    rw [rate_split_high_eq rate hrate]; omega
  refine ⟨?_, ?_, ?_⟩
  · rw [rate_split_low_eq, hj]; omega
  · rw [rate_split_high_eq _ hjlt, hj]; omega
  · rw [rate_join_eq _ _ hsl hsh, rate_split_low_eq, rate_split_high_eq rate hrate]
    omega

/-- C8 at the words `(100000000, 3)` and at the rate 1200000000. -/
theorem c8_rate_split_join_roundtrip_witness :
    ((100000000 : Nat) < 2 ^ 32 ∧ (3 : Nat) < 2 ^ 32 ∧ (1200000000 : Nat) < 2 ^ 64) ∧
    rate_split_low (rate_join 100000000 3) = 100000000 ∧
    rate_split_high (rate_join 100000000 3) = 3 ∧
    rate_join (rate_split_low 1200000000) (rate_split_high 1200000000)
      = 1200000000 :=
  ⟨by decide,
   c8_rate_split_join_roundtrip 100000000 3 1200000000 (by decide) (by decide)
     (by decide)⟩

/-! ## Unknown message ids -/

/-- C9: for a message id outside `{0x3, 0x4, 0x5, 0x6, 0x7}` and any payload, the
message handler sends exactly one response, the four-byte struct holding the
status `SCMI_NOT_SUPPORTED`, calls no backend operation and leaves the backend
state as it was. -/
theorem c9_unknown_message_not_supported {β : Type} (K : fwk_consts)
    (ctx : scmi_clock_ctx) (api : mod_clock_api β) (q : query_handlers β)
    (protocol_id service_id : Nat) (payload : List Nat)
    (payload_size message_id : Nat) (w : world β)
    (hid : message_id ∉ [0x3, 0x4, 0x5, 0x6, 0x7]) :
    scmi_clock_message_handler K ctx api q protocol_id service_id payload
        payload_size message_id w
      = some (K.FWK_SUCCESS,
          { backend := w.backend,
            trace := w.trace ++
              [.respond service_id (.status_only .SCMI_NOT_SUPPORTED) 4] }) := by
  simp only [List.mem_cons, List.mem_singleton, List.not_mem_nil, not_or,
    or_false] at hid
  obtain ⟨h3, h4, h5, h6, h7⟩ := hid
  simp [scmi_clock_message_handler, SCMI_CLOCK_RATE_SET, SCMI_CLOCK_RATE_GET,
    SCMI_CLOCK_CONFIG_SET, SCMI_CLOCK_ATTRIBUTES, SCMI_CLOCK_DESCRIBE_RATES,
    h3, h4, h5, h6, h7, world.emit, response.sizeof]

/-- C9 at message id `0x8` with an empty payload. -/
theorem c9_unknown_message_not_supported_witness :
    ((0x8 : Nat) ∉ [0x3, 0x4, 0x5, 0x6, 0x7]) ∧
    scmi_clock_message_handler demo_consts demo_ctx (stub_api 0 0) stub_queries
        0 7 [] 0 0x8 ⟨0, []⟩
      = some (0, ⟨0, [.respond 7 (.status_only .SCMI_NOT_SUPPORTED) 4]⟩) :=
  ⟨by decide,
   c9_unknown_message_not_supported demo_consts demo_ctx (stub_api 0 0)
     stub_queries 0 7 [] 0 0x8 ⟨0, []⟩ (by decide)⟩

/-- C10: a config-set request for a configured clock makes exactly one backend
call, `set_state` with `MOD_CLOCK_STATE_RUNNING` when the least-significant bit
of `attributes` is 1 and `MOD_CLOCK_STATE_STOPPED` otherwise; one status-only
response follows, with status `SCMI_SUCCESS` when the backend returned success;
and a request whose attributes word has the same least-significant bit gives
the same backend call and the same response. -/
theorem c10_config_set_uses_enable_bit {β : Type} (K : fwk_consts)
    (ctx : scmi_clock_ctx) (api : mod_clock_api β)
    (service_id clock_id attributes attributes2 : Nat)
    (rest : List Nat) (w : world β) (dev : mod_scmi_clock_device) (r : Int) (b : β)
    (hid : clock_id < 2 ^ 32) (hattr : attributes < 2 ^ 32)
    (hattr2 : attributes2 < 2 ^ 32)
    (hlt : clock_id < ctx.clock_count)
    (hdev : ctx.clock_devices[clock_id]? = some dev)
    (hcfg : dev.element_id ≠ K.FWK_ID_NONE)
    (hret : api.set_state dev.element_id
        (if attributes % 2 = 1 then .MOD_CLOCK_STATE_RUNNING
         else .MOD_CLOCK_STATE_STOPPED) w.backend = (r, b))
    (hbit : attributes2 % 2 = attributes % 2) :
    (∃ s : scmi_status,
      scmi_clock_config_set_handler K ctx api service_id
          (clock_id :: attributes :: rest) w
        = some (K.FWK_SUCCESS,
            { backend := b,
              trace := w.trace ++
                [.set_state dev.element_id
                   (if attributes % 2 = 1 then .MOD_CLOCK_STATE_RUNNING
                    else .MOD_CLOCK_STATE_STOPPED),
                 .respond service_id (.status_only s) 4] }) ∧
      (r = K.FWK_SUCCESS → s = .SCMI_SUCCESS)) ∧
    scmi_clock_config_set_handler K ctx api service_id
        (clock_id :: attributes2 :: rest) w
      = scmi_clock_config_set_handler K ctx api service_id
          (clock_id :: attributes :: rest) w := by
  have h1 := config_set_configured K ctx api service_id clock_id attributes rest w
    dev r b hid hattr hlt hdev hcfg hret
  have h2 := config_set_configured K ctx api service_id clock_id attributes2 rest w
    dev r b hid hattr2 hlt hdev hcfg (by rw [hbit]; exact hret)
  refine ⟨⟨_, h1, fun h => by simp [h]⟩, ?_⟩
  rw [h1, h2, hbit]

/-- C10 at the spec's scenario 3 on clock 0: `attributes = 0x1` requests
`MOD_CLOCK_STATE_RUNNING` and `0x3` behaves like `0x1`; `attributes = 0x0`
requests `MOD_CLOCK_STATE_STOPPED` and `0x2` behaves like `0x0`. -/
theorem c10_config_set_uses_enable_bit_witness :
    ((0 : Nat) < 2 ^ 32 ∧ (0x1 : Nat) < 2 ^ 32 ∧ (0x3 : Nat) < 2 ^ 32 ∧
      (0x0 : Nat) < 2 ^ 32 ∧ (0x2 : Nat) < 2 ^ 32 ∧
      0 < demo_ctx.clock_count ∧ demo_ctx.clock_devices[0]? = some ⟨100, true⟩ ∧
      (⟨100, true⟩ : mod_scmi_clock_device).element_id ≠ demo_consts.FWK_ID_NONE ∧
      (stub_api 0 0).set_state 100 .MOD_CLOCK_STATE_RUNNING 0 = (0, 1) ∧
      (stub_api 0 0).set_state 100 .MOD_CLOCK_STATE_STOPPED 0 = (0, 1) ∧
      0x3 % 2 = 0x1 % 2 ∧ 0x2 % 2 = 0x0 % 2) ∧
    ((∃ s : scmi_status,
      scmi_clock_config_set_handler demo_consts demo_ctx (stub_api 0 0) 7
          [0, 0x1] ⟨0, []⟩
        = some (0, ⟨1, [.set_state 100 .MOD_CLOCK_STATE_RUNNING,
                        .respond 7 (.status_only s) 4]⟩) ∧
      s = .SCMI_SUCCESS) ∧
    scmi_clock_config_set_handler demo_consts demo_ctx (stub_api 0 0) 7
        [0, 0x3] ⟨0, []⟩
      = scmi_clock_config_set_handler demo_consts demo_ctx (stub_api 0 0) 7
          [0, 0x1] ⟨0, []⟩) ∧
    ((∃ s : scmi_status,
      scmi_clock_config_set_handler demo_consts demo_ctx (stub_api 0 0) 7
          [0, 0x0] ⟨0, []⟩
        = some (0, ⟨1, [.set_state 100 .MOD_CLOCK_STATE_STOPPED,
                        .respond 7 (.status_only s) 4]⟩) ∧
      s = .SCMI_SUCCESS) ∧
    scmi_clock_config_set_handler demo_consts demo_ctx (stub_api 0 0) 7
        [0, 0x2] ⟨0, []⟩
      = scmi_clock_config_set_handler demo_consts demo_ctx (stub_api 0 0) 7
          [0, 0x0] ⟨0, []⟩) :=
  ⟨by decide,
   (c10_config_set_uses_enable_bit demo_consts demo_ctx (stub_api 0 0) 7 0 0x1 0x3
      [] ⟨0, []⟩ ⟨100, true⟩ 0 1 (by decide) (by decide) (by decide) (by decide)
      (by decide) (by decide) rfl (by decide)).imp
     (fun h => h.imp fun _ hs => ⟨hs.1, hs.2 rfl⟩) id,
   (c10_config_set_uses_enable_bit demo_consts demo_ctx (stub_api 0 0) 7 0 0x0 0x2
      [] ⟨0, []⟩ ⟨100, true⟩ 0 1 (by decide) (by decide) (by decide) (by decide)
      (by decide) (by decide) rfl (by decide)).imp
     (fun h => h.imp fun _ hs => ⟨hs.1, hs.2 rfl⟩) id⟩

/-! ## Every path of a handler -/

/-- Every path of the rate-set handler, followed in two worlds whose backends
give the same `set_rate` status: the handler returns `FWK_SUCCESS`, the same
backend calls (at most one) are made, and the same status-only response is
sent last. -/
theorem rate_set_paths {β : Type} (K : fwk_consts) (ctx : scmi_clock_ctx)
    (api : mod_clock_api β) (service_id : Nat) (payload : List Nat)
    (w1 w2 : world β)
    (hlen : 4 ≤ payload.length)
    (htab : ctx.clock_count ≤ ctx.clock_devices.length)
    (hsr : ∀ id rate mode,
      (api.set_rate id rate mode w1.backend).1
        = (api.set_rate id rate mode w2.backend).1) :
    ∃ (calls : List event) (s : scmi_status) (b1 b2 : β),
      scmi_clock_rate_set_handler K ctx api service_id payload w1
        = some (K.FWK_SUCCESS,
            { backend := b1,
              trace := w1.trace ++ calls ++
                [.respond service_id (.status_only s) 4] }) ∧
      scmi_clock_rate_set_handler K ctx api service_id payload w2
        = some (K.FWK_SUCCESS,
            { backend := b2,
              trace := w2.trace ++ calls ++
                [.respond service_id (.status_only s) 4] }) ∧
      (∀ e ∈ calls, e.is_backend = true) ∧ calls.length ≤ 1 := by
  rcases payload with _ | ⟨flags, _ | ⟨cid, _ | ⟨lo, _ | ⟨hi, rest⟩⟩⟩⟩ <;>
    simp at hlen
  by_cases hr : ctx.clock_count ≤ cid % 4294967296
  · refine ⟨[], .SCMI_INVALID_PARAMETERS, w1.backend, w2.backend, ?_, ?_, ?_, ?_⟩ <;>
      simp [scmi_clock_rate_set_handler, read_u32, respond_exit, world.emit,
        response.sizeof, hr]
  · have hlt : cid % 4294967296 < ctx.clock_devices.length := by omega
    obtain ⟨dev, hdev⟩ : ∃ dev, ctx.clock_devices[cid % 4294967296]? = some dev :=
      ⟨_, List.getElem?_eq_getElem hlt⟩
    by_cases hn : dev.element_id = K.FWK_ID_NONE
    · refine ⟨[], .SCMI_NOT_FOUND, w1.backend, w2.backend, ?_, ?_, ?_, ?_⟩ <;>
        simp [scmi_clock_rate_set_handler, read_u32, respond_exit, world.emit,
          response.sizeof, fwk_id_is_equal, hr, hdev, hn]
    · have hs := hsr dev.element_id
        (rate_join (lo % 4294967296) (hi % 4294967296)) .MOD_CLOCK_ROUND_MODE_NEAREST
      rcases h1 : api.set_rate dev.element_id
        (rate_join (lo % 4294967296) (hi % 4294967296))
        .MOD_CLOCK_ROUND_MODE_NEAREST w1.backend with ⟨r1, b1⟩
      rcases h2 : api.set_rate dev.element_id
        (rate_join (lo % 4294967296) (hi % 4294967296))
        .MOD_CLOCK_ROUND_MODE_NEAREST w2.backend with ⟨r2, b2⟩
      rw [h1, h2] at hs
      simp only at hs
      subst hs
      refine ⟨[.set_rate dev.element_id
          (rate_join (lo % 4294967296) (hi % 4294967296))
          .MOD_CLOCK_ROUND_MODE_NEAREST],
        (if r1 = K.FWK_SUCCESS then .SCMI_SUCCESS else rate_set_error_status K r1),
        b1, b2, ?_, ?_, ?_, ?_⟩
      · by_cases hok : r1 = K.FWK_SUCCESS <;>
          simp [scmi_clock_rate_set_handler, read_u32, respond_exit, world.emit,
            response.sizeof, fwk_id_is_equal, hr, hdev, hn, h1, hok]
      · by_cases hok : r1 = K.FWK_SUCCESS <;>
          simp [scmi_clock_rate_set_handler, read_u32, respond_exit, world.emit,
            response.sizeof, fwk_id_is_equal, hr, hdev, hn, h2, hok]
      · simp [event.is_backend]
      · simp

/-- Every path of the rate-get handler, followed in two worlds whose backends
give the same `get_rate` answer: the handler returns `FWK_SUCCESS`, the same
backend calls (at most one) are made, and the same twelve-byte response is sent
last. -/
theorem rate_get_paths {β : Type} (K : fwk_consts) (ctx : scmi_clock_ctx)
    (api : mod_clock_api β) (service_id : Nat) (payload : List Nat)
    (w1 w2 : world β)
    (hlen : 1 ≤ payload.length)
    (htab : ctx.clock_count ≤ ctx.clock_devices.length)
    (hgr : ∀ id, (api.get_rate id w1.backend).1 = (api.get_rate id w2.backend).1) :
    ∃ (calls : List event) (s : scmi_status) (lo hi : Option Nat) (b1 b2 : β),
      scmi_clock_rate_get_handler K ctx api service_id payload w1
        = some (K.FWK_SUCCESS,
            { backend := b1,
              trace := w1.trace ++ calls ++
                [.respond service_id (.rate_get s lo hi) 12] }) ∧
      scmi_clock_rate_get_handler K ctx api service_id payload w2
        = some (K.FWK_SUCCESS,
            { backend := b2,
              trace := w2.trace ++ calls ++
                [.respond service_id (.rate_get s lo hi) 12] }) ∧
      (∀ e ∈ calls, e.is_backend = true) ∧ calls.length ≤ 1 := by
  rcases payload with _ | ⟨cid, rest⟩ <;> simp at hlen
  by_cases hr : ctx.clock_count ≤ cid % 4294967296
  · refine ⟨[], .SCMI_INVALID_PARAMETERS, none, none, w1.backend, w2.backend,
      ?_, ?_, ?_, ?_⟩ <;>
      simp [scmi_clock_rate_get_handler, read_u32, respond_exit, world.emit,
        response.sizeof, hr]
  · have hlt : cid % 4294967296 < ctx.clock_devices.length := by omega
    obtain ⟨dev, hdev⟩ : ∃ dev, ctx.clock_devices[cid % 4294967296]? = some dev :=
      ⟨_, List.getElem?_eq_getElem hlt⟩
    by_cases hn : dev.element_id = K.FWK_ID_NONE
    · refine ⟨[], .SCMI_NOT_FOUND, none, none, w1.backend, w2.backend,
        ?_, ?_, ?_, ?_⟩ <;>
        simp [scmi_clock_rate_get_handler, read_u32, respond_exit, world.emit,
          response.sizeof, fwk_id_is_equal, hr, hdev, hn]
    · have hs := hgr dev.element_id
      rcases h1 : api.get_rate dev.element_id w1.backend with ⟨⟨r1, v1⟩, b1⟩
      rcases h2 : api.get_rate dev.element_id w2.backend with ⟨⟨r2, v2⟩, b2⟩
      rw [h1, h2] at hs
      simp only [Prod.mk.injEq] at hs
      obtain ⟨hrr, hvv⟩ := hs
      subst hrr
      subst hvv
      by_cases hok : r1 = K.FWK_SUCCESS
      · refine ⟨[.get_rate dev.element_id], .SCMI_SUCCESS,
          some (rate_split_low (v1 % 2 ^ 64)), some (rate_split_high (v1 % 2 ^ 64)),
          b1, b2, ?_, ?_, ?_, ?_⟩
        · simp [scmi_clock_rate_get_handler, read_u32, respond_exit, world.emit,
            response.sizeof, fwk_id_is_equal, hr, hdev, hn, h1, hok]
        · simp [scmi_clock_rate_get_handler, read_u32, respond_exit, world.emit,
            response.sizeof, fwk_id_is_equal, hr, hdev, hn, h2, hok]
        · simp [event.is_backend]
        · simp
      · refine ⟨[.get_rate dev.element_id], .SCMI_HARDWARE_ERROR, none, none,
          b1, b2, ?_, ?_, ?_, ?_⟩
        · simp [scmi_clock_rate_get_handler, read_u32, respond_exit, world.emit,
            response.sizeof, fwk_id_is_equal, hr, hdev, hn, h1, hok]
        · simp [scmi_clock_rate_get_handler, read_u32, respond_exit, world.emit,
            response.sizeof, fwk_id_is_equal, hr, hdev, hn, h2, hok]
        · simp [event.is_backend]
        · simp

/-- Every path of the config-set handler, followed in two worlds whose backends
give the same `set_state` status: the handler returns `FWK_SUCCESS`, the same
backend calls (at most one) are made, and the same status-only response is
sent last. -/
theorem config_set_paths {β : Type} (K : fwk_consts) (ctx : scmi_clock_ctx)
    (api : mod_clock_api β) (service_id : Nat) (payload : List Nat)
    (w1 w2 : world β)
    (hlen : 2 ≤ payload.length)
    (htab : ctx.clock_count ≤ ctx.clock_devices.length)
    (hss : ∀ id st,
      (api.set_state id st w1.backend).1 = (api.set_state id st w2.backend).1) :
    ∃ (calls : List event) (s : scmi_status) (b1 b2 : β),
      scmi_clock_config_set_handler K ctx api service_id payload w1
        = some (K.FWK_SUCCESS,
            { backend := b1,
              trace := w1.trace ++ calls ++
                [.respond service_id (.status_only s) 4] }) ∧
      scmi_clock_config_set_handler K ctx api service_id payload w2
        = some (K.FWK_SUCCESS,
            { backend := b2,
              trace := w2.trace ++ calls ++
                [.respond service_id (.status_only s) 4] }) ∧
      (∀ e ∈ calls, e.is_backend = true) ∧ calls.length ≤ 1 := by
  rcases payload with _ | ⟨cid, _ | ⟨attrs, rest⟩⟩ <;> simp at hlen
  by_cases hr : ctx.clock_count ≤ cid % 4294967296
  · refine ⟨[], .SCMI_INVALID_PARAMETERS, w1.backend, w2.backend, ?_, ?_, ?_, ?_⟩ <;>
      simp [scmi_clock_config_set_handler, read_u32, respond_exit, world.emit,
        response.sizeof, hr]
  · have hlt : cid % 4294967296 < ctx.clock_devices.length := by omega
    obtain ⟨dev, hdev⟩ : ∃ dev, ctx.clock_devices[cid % 4294967296]? = some dev :=
      ⟨_, List.getElem?_eq_getElem hlt⟩
    by_cases hn : dev.element_id = K.FWK_ID_NONE
    · refine ⟨[], .SCMI_NOT_FOUND, w1.backend, w2.backend, ?_, ?_, ?_, ?_⟩ <;>
        simp [scmi_clock_config_set_handler, read_u32, respond_exit, world.emit,
          response.sizeof, fwk_id_is_equal, hr, hdev, hn]
    · have hs := hss dev.element_id
        (if attrs % 4294967296 % 2 = 1 then .MOD_CLOCK_STATE_RUNNING
         else .MOD_CLOCK_STATE_STOPPED)
      rcases h1 : api.set_state dev.element_id
        (if attrs % 4294967296 % 2 = 1 then .MOD_CLOCK_STATE_RUNNING
         else .MOD_CLOCK_STATE_STOPPED) w1.backend with ⟨r1, b1⟩
      rcases h2 : api.set_state dev.element_id
        (if attrs % 4294967296 % 2 = 1 then .MOD_CLOCK_STATE_RUNNING
         else .MOD_CLOCK_STATE_STOPPED) w2.backend with ⟨r2, b2⟩
      rw [h1, h2] at hs
      simp only at hs
      subst hs
      refine ⟨[.set_state dev.element_id
          (if attrs % 4294967296 % 2 = 1 then .MOD_CLOCK_STATE_RUNNING
           else .MOD_CLOCK_STATE_STOPPED)],
        (if r1 = K.FWK_SUCCESS then .SCMI_SUCCESS else .SCMI_HARDWARE_ERROR),
        b1, b2, ?_, ?_, ?_, ?_⟩
      · by_cases hok : r1 = K.FWK_SUCCESS <;>
          simp [scmi_clock_config_set_handler, read_u32, respond_exit, world.emit,
            response.sizeof, fwk_id_is_equal, hr, hdev, hn, h1, hok]
      · by_cases hok : r1 = K.FWK_SUCCESS <;>
          simp [scmi_clock_config_set_handler, read_u32, respond_exit, world.emit,
            response.sizeof, fwk_id_is_equal, hr, hdev, hn, h2, hok]
      · simp [event.is_backend]
      · simp

/-- Every path of the dispatcher for a message id other than the two query
commands, followed in two worlds whose backends give the same answers: the
dispatcher returns `FWK_SUCCESS`, the same backend calls (at most one) are made
and the same response is sent last, twelve bytes long for rate get and four
bytes long otherwise. -/
theorem message_handler_paths {β : Type} (K : fwk_consts) (ctx : scmi_clock_ctx)
    (api : mod_clock_api β) (q : query_handlers β) (protocol_id service_id : Nat)
    (payload : List Nat) (payload_size message_id : Nat) (w1 w2 : world β)
    (hq3 : message_id ≠ SCMI_CLOCK_ATTRIBUTES)
    (hq4 : message_id ≠ SCMI_CLOCK_DESCRIBE_RATES)
    (hlen : request_words message_id ≤ payload.length)
    (htab : ctx.clock_count ≤ ctx.clock_devices.length)
    (hsr : ∀ id rate mode,
      (api.set_rate id rate mode w1.backend).1
        = (api.set_rate id rate mode w2.backend).1)
    (hgr : ∀ id, (api.get_rate id w1.backend).1 = (api.get_rate id w2.backend).1)
    (hss : ∀ id st,
      (api.set_state id st w1.backend).1 = (api.set_state id st w2.backend).1) :
    ∃ (calls : List event) (resp : response) (b1 b2 : β),
      scmi_clock_message_handler K ctx api q protocol_id service_id payload
          payload_size message_id w1
        = some (K.FWK_SUCCESS,
            { backend := b1,
              trace := w1.trace ++ calls ++
                [.respond service_id resp resp.sizeof] }) ∧
      scmi_clock_message_handler K ctx api q protocol_id service_id payload
          payload_size message_id w2
        = some (K.FWK_SUCCESS,
            { backend := b2,
              trace := w2.trace ++ calls ++
                [.respond service_id resp resp.sizeof] }) ∧
      (∀ e ∈ calls, e.is_backend = true) ∧ calls.length ≤ 1 ∧
      resp.sizeof = (if message_id = SCMI_CLOCK_RATE_GET then 12 else 4) := by
  by_cases h5 : message_id = SCMI_CLOCK_RATE_SET
  · subst h5
    obtain ⟨calls, s, b1, b2, e1, e2, hc, hl⟩ := rate_set_paths K ctx api service_id
      payload w1 w2 (by simpa [request_words] using hlen) htab hsr
    exact ⟨calls, .status_only s, b1, b2,
      by simpa [scmi_clock_message_handler, response.sizeof] using e1,
      by simpa [scmi_clock_message_handler, response.sizeof] using e2, hc, hl,
      by simp [response.sizeof, SCMI_CLOCK_RATE_SET, SCMI_CLOCK_RATE_GET]⟩
  by_cases h6 : message_id = SCMI_CLOCK_RATE_GET
  · subst h6
    obtain ⟨calls, s, lo, hi, b1, b2, e1, e2, hc, hl⟩ := rate_get_paths K ctx api
      service_id payload w1 w2
      (by simpa [request_words, SCMI_CLOCK_RATE_SET, SCMI_CLOCK_RATE_GET] using hlen)
      htab hgr
    exact ⟨calls, .rate_get s lo hi, b1, b2,
      by simpa [scmi_clock_message_handler, response.sizeof, SCMI_CLOCK_RATE_SET,
        SCMI_CLOCK_RATE_GET] using e1,
      by simpa [scmi_clock_message_handler, response.sizeof, SCMI_CLOCK_RATE_SET,
        SCMI_CLOCK_RATE_GET] using e2, hc, hl,
      by simp [response.sizeof]⟩
  by_cases h7 : message_id = SCMI_CLOCK_CONFIG_SET
  · subst h7
    obtain ⟨calls, s, b1, b2, e1, e2, hc, hl⟩ := config_set_paths K ctx api
      service_id payload w1 w2
      (by simpa [request_words, SCMI_CLOCK_RATE_SET, SCMI_CLOCK_RATE_GET,
        SCMI_CLOCK_CONFIG_SET] using hlen) htab hss
    exact ⟨calls, .status_only s, b1, b2,
      by simpa [scmi_clock_message_handler, response.sizeof, SCMI_CLOCK_RATE_SET,
        SCMI_CLOCK_RATE_GET, SCMI_CLOCK_CONFIG_SET] using e1,
      by simpa [scmi_clock_message_handler, response.sizeof, SCMI_CLOCK_RATE_SET,
        SCMI_CLOCK_RATE_GET, SCMI_CLOCK_CONFIG_SET] using e2, hc, hl,
      by simp [response.sizeof, SCMI_CLOCK_CONFIG_SET, SCMI_CLOCK_RATE_GET]⟩
  · refine ⟨[], .status_only .SCMI_NOT_SUPPORTED, w1.backend, w2.backend,
      ?_, ?_, ?_, ?_, ?_⟩
    · simp [scmi_clock_message_handler, h5, h6, h7, hq3, hq4, world.emit]
    · simp [scmi_clock_message_handler, h5, h6, h7, hq3, hq4, world.emit]
    · simp
    · simp
    · simp [response.sizeof, h6]

/-! ## One response per message -/

/-- C11: for a message id that is rate set, rate get, config set or unknown, the
dispatcher returns after having called `respond` exactly once: what it appends
to the trace is a list of backend calls followed by one `respond` event, so the
responses recorded grow by exactly that one; the size passed to `respond` is 12
for rate get and 4 for rate set, config set and unknown ids. -/
theorem c11_exactly_one_response {β : Type} (K : fwk_consts) (ctx : scmi_clock_ctx)
    (api : mod_clock_api β) (q : query_handlers β) (protocol_id service_id : Nat)
    (payload : List Nat) (payload_size message_id : Nat) (w : world β)
    (hq3 : message_id ≠ SCMI_CLOCK_ATTRIBUTES)
    (hq4 : message_id ≠ SCMI_CLOCK_DESCRIBE_RATES)
    (hlen : request_words message_id ≤ payload.length)
    (htab : ctx.clock_count ≤ ctx.clock_devices.length) :
    ∃ (st : Int) (calls : List event) (resp : response) (b : β),
      scmi_clock_message_handler K ctx api q protocol_id service_id payload
          payload_size message_id w
        = some (st,
            { backend := b,
              trace := w.trace ++ calls ++
                [.respond service_id resp resp.sizeof] }) ∧
      (∀ e ∈ calls, e.is_backend = true) ∧
      responses (w.trace ++ calls ++ [.respond service_id resp resp.sizeof])
        = responses w.trace ++ [.respond service_id resp resp.sizeof] ∧
      resp.sizeof = (if message_id = SCMI_CLOCK_RATE_GET then 12 else 4) := by
  obtain ⟨calls, resp, b, _, e1, _, hc, _, hsz⟩ := message_handler_paths K ctx api q
    protocol_id service_id payload payload_size message_id w w hq3 hq4 hlen htab
    (fun _ _ _ => rfl) (fun _ => rfl) (fun _ _ => rfl)
  refine ⟨K.FWK_SUCCESS, calls, resp, b, e1, hc, ?_, hsz⟩
  have hnil : calls.filter (fun e => !e.is_backend) = [] := by
    rw [List.filter_eq_nil_iff]
    intro e he
    simp [hc e he]
  unfold responses
  rw [List.filter_append, List.filter_append, hnil]
  simp [event.is_backend]

/-- C11 on the sixteen-entry table: a rate-get message for clock 2 is answered
once, with twelve bytes, after one backend call. -/
theorem c11_exactly_one_response_witness :
    (SCMI_CLOCK_RATE_GET ≠ SCMI_CLOCK_ATTRIBUTES ∧
      SCMI_CLOCK_RATE_GET ≠ SCMI_CLOCK_DESCRIBE_RATES ∧
      request_words SCMI_CLOCK_RATE_GET ≤ [2].length ∧
      demo_ctx.clock_count ≤ demo_ctx.clock_devices.length) ∧
    ∃ (st : Int) (calls : List event) (resp : response) (b : Nat),
      scmi_clock_message_handler demo_consts demo_ctx (stub_api 0 1200000000)
          stub_queries 0 7 [2] 4 SCMI_CLOCK_RATE_GET ⟨0, []⟩
        = some (st, ⟨b, [] ++ calls ++ [.respond 7 resp resp.sizeof]⟩) ∧
      resp.sizeof = 12 :=
  ⟨by decide,
   (c11_exactly_one_response demo_consts demo_ctx (stub_api 0 1200000000)
      stub_queries 0 7 [2] 4 SCMI_CLOCK_RATE_GET ⟨0, []⟩ (by decide) (by decide)
      (by decide) (by decide)).imp
     fun _ h => h.imp fun _ h => h.imp fun _ h => h.imp fun _ h => ⟨h.1, h.2.2.2⟩⟩

/-! ## Rate fields of a failed rate get -/

/-- C12: the code does not do what the claim says. On each of the three failure
paths of the rate-get handler (index 99 out of range, index 6 absent, index 2
with a backend that fails) the twelve-byte struct is sent with `rate_low` and
`rate_high` never assigned: `return_values` has no initialiser, so the two
words are not zero but whatever the stack held. -/
theorem c12_failed_rate_get_leaves_rate_fields_unassigned :
    scmi_clock_rate_get_handler demo_consts demo_ctx (stub_api 0 0) 7 [99] ⟨0, []⟩
      = some (0, ⟨0, [.respond 7
          (.rate_get .SCMI_INVALID_PARAMETERS none none) 12]⟩) ∧
    scmi_clock_rate_get_handler demo_consts demo_ctx (stub_api 0 0) 7 [6] ⟨0, []⟩
      = some (0, ⟨0, [.respond 7 (.rate_get .SCMI_NOT_FOUND none none) 12]⟩) ∧
    scmi_clock_rate_get_handler demo_consts demo_ctx (stub_api (-12) 0) 7 [2]
        ⟨0, []⟩
      = some (0, ⟨1, [.get_rate 102,
                      .respond 7 (.rate_get .SCMI_HARDWARE_ERROR none none) 12]⟩) ∧
    scmi_clock_rate_get_handler demo_consts demo_ctx (stub_api 0 0) 7 [99] ⟨0, []⟩
      ≠ some (0, ⟨0, [.respond 7
          (.rate_get .SCMI_INVALID_PARAMETERS (some 0) (some 0)) 12]⟩) := by
  decide

/-! ## Bounds of the table lookup -/

/-- C13: with a clock table of length `clock_count` and a 32-bit `clock_id`, no
handler reads the table out of bounds: each of them returns an outcome (the
undefined out-of-bounds read never happens); when `clock_id >= clock_count` the
outcome is the same whatever the table holds, so the table is not read at all;
and when `clock_id < clock_count` the entry exists and its element id is either
the sentinel `FWK_ID_NONE` or a concrete id. -/
theorem c13_table_lookup_in_bounds {β : Type} (K : fwk_consts)
    (ctx : scmi_clock_ctx) (api : mod_clock_api β)
    (service_id flags clock_id rate_low rate_high attributes : Nat)
    (rest : List Nat) (w : world β)
    (hid : clock_id < 2 ^ 32)
    (hlen : ctx.clock_devices.length = ctx.clock_count) :
    ((scmi_clock_rate_set_handler K ctx api service_id
        (flags :: clock_id :: rate_low :: rate_high :: rest) w).isSome = true ∧
     (scmi_clock_rate_get_handler K ctx api service_id
        (clock_id :: rest) w).isSome = true ∧
     (scmi_clock_config_set_handler K ctx api service_id
        (clock_id :: attributes :: rest) w).isSome = true) ∧
    (ctx.clock_count ≤ clock_id →
      ∀ table : List mod_scmi_clock_device,
        scmi_clock_rate_set_handler K { ctx with clock_devices := table } api
            service_id (flags :: clock_id :: rate_low :: rate_high :: rest) w
          = scmi_clock_rate_set_handler K ctx api service_id
              (flags :: clock_id :: rate_low :: rate_high :: rest) w ∧
        scmi_clock_rate_get_handler K { ctx with clock_devices := table } api
            service_id (clock_id :: rest) w
          = scmi_clock_rate_get_handler K ctx api service_id (clock_id :: rest) w ∧
        scmi_clock_config_set_handler K { ctx with clock_devices := table } api
            service_id (clock_id :: attributes :: rest) w
          = scmi_clock_config_set_handler K ctx api service_id
              (clock_id :: attributes :: rest) w) ∧
    (clock_id < ctx.clock_count →
      ∃ dev, ctx.clock_devices[clock_id]? = some dev ∧
        (dev.element_id = K.FWK_ID_NONE ∨ dev.element_id ≠ K.FWK_ID_NONE)) := by
  have htab : ctx.clock_count ≤ ctx.clock_devices.length := by omega
  have hm : clock_id % 4294967296 = clock_id := Nat.mod_eq_of_lt hid
  refine ⟨⟨?_, ?_, ?_⟩, ?_, ?_⟩
  · obtain ⟨_, _, _, _, e, _⟩ := rate_set_paths K ctx api service_id
      (flags :: clock_id :: rate_low :: rate_high :: rest) w w (by simp) htab
      (fun _ _ _ => rfl)
    rw [e]; rfl
  · obtain ⟨_, _, _, _, _, _, e, _⟩ := rate_get_paths K ctx api service_id
      (clock_id :: rest) w w (by simp) htab (fun _ => rfl)
    rw [e]; rfl
  · obtain ⟨_, _, _, _, e, _⟩ := config_set_paths K ctx api service_id
      (clock_id :: attributes :: rest) w w (by simp) htab (fun _ _ => rfl)
    rw [e]; rfl
  · intro hge table
    refine ⟨?_, ?_, ?_⟩
    · simp [scmi_clock_rate_set_handler, read_u32, hm, hge]
    · simp [scmi_clock_rate_get_handler, read_u32, hm, hge]
    · simp [scmi_clock_config_set_handler, read_u32, hm, hge]
  · intro hlt
    have hlt2 : clock_id < ctx.clock_devices.length := by omega
    exact ⟨_, List.getElem?_eq_getElem hlt2, Classical.em _⟩

/-- C13 on the sixteen-entry table at index 15, the last one in bounds. -/
theorem c13_table_lookup_in_bounds_witness :
    ((15 : Nat) < 2 ^ 32 ∧ demo_ctx.clock_devices.length = demo_ctx.clock_count) ∧
    (scmi_clock_rate_get_handler demo_consts demo_ctx (stub_api 0 0) 7
        [15] ⟨0, []⟩).isSome = true ∧
    ∃ dev, demo_ctx.clock_devices[15]? = some dev ∧
      (dev.element_id = demo_consts.FWK_ID_NONE ∨
        dev.element_id ≠ demo_consts.FWK_ID_NONE) :=
  ⟨by decide,
   (c13_table_lookup_in_bounds demo_consts demo_ctx (stub_api 0 0) 7 0 15 0 0 0 []
      ⟨0, []⟩ (by decide) (by decide)).1.2.1,
   (c13_table_lookup_in_bounds demo_consts demo_ctx (stub_api 0 0) 7 0 15 0 0 0 []
      ⟨0, []⟩ (by decide) (by decide)).2.2 (by decide)⟩

/-! ## The context is read-only and dispatch keeps no history -/

/-- C15: whatever the payload holds, whatever the clock table holds and whatever
the backend returns, each of the three handlers returns `FWK_SUCCESS` to the
framework, and so does the dispatcher for every unknown message id; the
protocol status is carried by the response only. -/
theorem c15_handlers_return_success {β : Type} (K : fwk_consts)
    (ctx : scmi_clock_ctx) (api : mod_clock_api β) (q : query_handlers β)
    (protocol_id service_id : Nat) (p_set p_get p_config p_other : List Nat)
    (payload_size message_id : Nat) (w : world β)
    (hset : 4 ≤ p_set.length) (hget : 1 ≤ p_get.length)
    (hconfig : 2 ≤ p_config.length)
    (htab : ctx.clock_count ≤ ctx.clock_devices.length)
    (hid : message_id ∉ [0x3, 0x4, 0x5, 0x6, 0x7]) :
    (∃ w1, scmi_clock_rate_set_handler K ctx api service_id p_set w
        = some (K.FWK_SUCCESS, w1)) ∧
    (∃ w1, scmi_clock_rate_get_handler K ctx api service_id p_get w
        = some (K.FWK_SUCCESS, w1)) ∧
    (∃ w1, scmi_clock_config_set_handler K ctx api service_id p_config w
        = some (K.FWK_SUCCESS, w1)) ∧
    (∃ w1, scmi_clock_message_handler K ctx api q protocol_id service_id p_other
        payload_size message_id w = some (K.FWK_SUCCESS, w1)) := by
  refine ⟨?_, ?_, ?_, ?_⟩
  · obtain ⟨_, _, _, _, e, _⟩ := rate_set_paths K ctx api service_id p_set w w hset
      htab (fun _ _ _ => rfl)
    exact ⟨_, e⟩
  · obtain ⟨_, _, _, _, _, _, e, _⟩ := rate_get_paths K ctx api service_id p_get w w
      hget htab (fun _ => rfl)
    exact ⟨_, e⟩
  · obtain ⟨_, _, _, _, e, _⟩ := config_set_paths K ctx api service_id p_config w w
      hconfig htab (fun _ _ => rfl)
    exact ⟨_, e⟩
  · simp only [List.mem_cons, List.mem_singleton, List.not_mem_nil, not_or,
      or_false] at hid
    obtain ⟨h3, h4, h5, h6, h7⟩ := hid
    exact ⟨w.emit (.respond service_id (.status_only .SCMI_NOT_SUPPORTED)
        (response.status_only .SCMI_NOT_SUPPORTED).sizeof), by
      simp [scmi_clock_message_handler, SCMI_CLOCK_RATE_SET, SCMI_CLOCK_RATE_GET,
        SCMI_CLOCK_CONFIG_SET, SCMI_CLOCK_ATTRIBUTES, SCMI_CLOCK_DESCRIBE_RATES,
        h3, h4, h5, h6, h7]⟩

/-- C15 with a backend that reports busy and an out-of-range rate-set request:
the handlers still return the success code 0. -/
theorem c15_handlers_return_success_witness :
    ((4 : Nat) ≤ [0, 99, 0, 0].length ∧ 1 ≤ [2].length ∧ 2 ≤ [2, 1].length ∧
      demo_ctx.clock_count ≤ demo_ctx.clock_devices.length ∧
      (0x9 : Nat) ∉ [0x3, 0x4, 0x5, 0x6, 0x7]) ∧
    (∃ w1, scmi_clock_rate_set_handler demo_consts demo_ctx (stub_api (-12) 0) 7
        [0, 99, 0, 0] ⟨0, []⟩ = some (0, w1)) ∧
    (∃ w1, scmi_clock_rate_get_handler demo_consts demo_ctx (stub_api (-12) 0) 7
        [2] ⟨0, []⟩ = some (0, w1)) ∧
    (∃ w1, scmi_clock_config_set_handler demo_consts demo_ctx (stub_api (-12) 0) 7
        [2, 1] ⟨0, []⟩ = some (0, w1)) ∧
    (∃ w1, scmi_clock_message_handler demo_consts demo_ctx (stub_api (-12) 0)
        stub_queries 0 7 [] 0 0x9 ⟨0, []⟩ = some (0, w1)) :=
  ⟨by decide,
   c15_handlers_return_success demo_consts demo_ctx (stub_api (-12) 0) stub_queries
     0 7 [0, 99, 0, 0] [2] [2, 1] [] 0 0x9 ⟨0, []⟩ (by decide) (by decide)
     (by decide) (by decide) (by decide)⟩

/-! ## Driver side: rounding a rate -/

/-- Below `2 ^ 63` the stored distance is the absolute difference. -/
theorem rate_distance_eq (rate r : Nat) (hrate : rate < 2 ^ 63) (hr : r < 2 ^ 63) :
    rate_distance rate r = Int.natAbs ((rate : Int) - (r : Int)) := by
  unfold rate_distance to_ulong abs_long to_long wrap_long
  split_ifs <;> omega

/-- The conversion to `long` keeps a value below `2 ^ 63`. -/
theorem to_long_eq (x : Nat) (hx : x < 2 ^ 63) : to_long x = (x : Int) := by
  unfold to_long wrap_long
  omega

/-- Invariant of the loop of `scmi_clk_round_rate`: when `best_rate` sits at
position `j`, is nearest to `rate` among the entries before `i` and strictly
nearer than every entry before `j`, the loop run over the remaining entries
returns an entry with the same two properties over the whole list. -/
theorem round_rate_loop_spec (rates : List Nat) (rate : Nat)
    (hvals : ∀ x ∈ rates, x < 2 ^ 64) :
    ∀ (n i best j : Nat), i + n = rates.length → j < i → rates[j]? = some best →
      (∀ (k x : Nat), k < i → rates[k]? = some x →
        rate_distance rate best ≤ rate_distance rate x) →
      (∀ (k x : Nat), k < j → rates[k]? = some x →
        rate_distance rate best < rate_distance rate x) →
      ∃ res pos, round_rate_loop rates rate n i best (rate_distance rate best)
          = some res ∧
        rates[pos]? = some res ∧
        (∀ (k x : Nat), rates[k]? = some x →
          rate_distance rate res ≤ rate_distance rate x) ∧
        (∀ (k x : Nat), k < pos → rates[k]? = some x →
          rate_distance rate res < rate_distance rate x) := by
  intro n
  induction n with
  | zero =>
    intro i best j hlen _ hbest hmin hfirst
    refine ⟨best, j, rfl, hbest, ?_, hfirst⟩
    intro k x hk
    have hklt : k < rates.length := by
      rcases Nat.lt_or_ge k rates.length with h | h
      · exact h
      · rw [List.getElem?_eq_none h] at hk
        cases hk
    exact hmin k x (by omega) hk
  | succ n ih =>
    intro i best j hlen hj hbest hmin hfirst
    have hi : i < rates.length := by omega
    obtain ⟨r, hr⟩ : ∃ r, rates[i]? = some r := ⟨_, List.getElem?_eq_getElem hi⟩
    have hmod : r % 2 ^ 64 = r := Nat.mod_eq_of_lt (hvals r (List.getElem?_mem hr))
    unfold round_rate_loop
    rw [hr]
    simp only [hmod]
    by_cases hlt : rate_distance rate r < rate_distance rate best
    · rw [if_pos hlt]
      refine ih (i + 1) r i (by omega) (by omega) hr ?_ ?_
      · intro k x hk hx
        rcases Nat.lt_or_ge k i with h | h
        · exact Nat.le_of_lt (Nat.lt_of_lt_of_le hlt (hmin k x h hx))
        · have hki : k = i := by omega
          subst hki
          rw [hr] at hx
          cases hx
          exact Nat.le_refl _
      · intro k x hk hx
        exact Nat.lt_of_lt_of_le hlt (hmin k x hk hx)
    · rw [if_neg hlt]
      refine ih (i + 1) best j (by omega) (by omega) hbest ?_ hfirst
      intro k x hk hx
      rcases Nat.lt_or_ge k i with h | h
      · exact hmin k x h hx
      · have hki : k = i := by omega
        subst hki
        rw [hr] at hx
        cases hx
        exact Nat.le_of_not_lt hlt

/-- C16: discrete case of `scmi_clk_round_rate`. For a clock info with
`rate_discrete` set, a non-empty list of `num_rates` rates, and all rates and
the requested rate below `2 ^ 63`, the function returns an entry of the list
whose absolute difference from `rate` is minimal over the whole list, and every
entry at an earlier position is strictly farther from `rate`. -/
theorem c16_round_rate_discrete_nearest_first (info : scmi_clock_info) (rate : Nat)
    (hdisc : info.rate_discrete = true)
    (hne : info.rates ≠ [])
    (hnum : info.num_rates = (info.rates.length : Int))
    (hvals : ∀ x ∈ info.rates, x < 2 ^ 63)
    (hrate : rate < 2 ^ 63) :
    ∃ (best pos : Nat),
      scmi_clk_round_rate (some info) rate = some (best : Int) ∧
      info.rates[pos]? = some best ∧
      (∀ (k x : Nat), info.rates[k]? = some x →
        Int.natAbs ((rate : Int) - (best : Int))
          ≤ Int.natAbs ((rate : Int) - (x : Int))) ∧
      (∀ (k x : Nat), k < pos → info.rates[k]? = some x →
        Int.natAbs ((rate : Int) - (best : Int))
          < Int.natAbs ((rate : Int) - (x : Int))) := by
  have hlen : 0 < info.rates.length := List.length_pos.mpr hne
  obtain ⟨r0, h0⟩ : ∃ r0, info.rates[0]? = some r0 :=
    ⟨_, List.getElem?_eq_getElem hlen⟩
  have hv64 : ∀ x ∈ info.rates, x < 2 ^ 64 := fun x hx =>
    Nat.lt_trans (hvals x hx) (by norm_num)
  have hmem : ∀ (k x : Nat), info.rates[k]? = some x → x ∈ info.rates :=
    fun _ _ hk => List.getElem?_mem hk
  have hmod0 : r0 % 2 ^ 64 = r0 := Nat.mod_eq_of_lt (hv64 r0 (hmem 0 r0 h0))
  have hn : (info.num_rates - 1).toNat = info.rates.length - 1 := by omega
  obtain ⟨res, pos, hrun, hpos, hmin, hfirst⟩ :=
    round_rate_loop_spec info.rates rate hv64 (info.rates.length - 1) 1
      r0 0 (by omega) (by omega) h0
      (by
        intro k x hk hx
        have hk0 : k = 0 := by omega
        subst hk0
        rw [h0] at hx
        cases hx
        exact Nat.le_refl _)
      (by intro k x hk; omega)
  have hres : res < 2 ^ 63 := hvals res (hmem pos res hpos)
  refine ⟨res, pos, ?_, hpos, ?_, ?_⟩
  · simp only [scmi_clk_round_rate, hdisc, if_true, h0, hmod0, hn, hrun,
      Option.map_some', to_long_eq res hres]
  · intro k x hk
    have hx : x < 2 ^ 63 := hvals x (hmem k x hk)
    have := hmin k x hk
    rwa [rate_distance_eq rate res hrate hres, rate_distance_eq rate x hrate hx]
      at this
  · intro k x hlt hk
    have hx : x < 2 ^ 63 := hvals x (hmem k x hk)
    have := hfirst k x hlt hk
    rwa [rate_distance_eq rate res hrate hres, rate_distance_eq rate x hrate hx]
      at this

/-- C16 on the list `[100, 300, 200, 300]` at the requested rate 250: both 300
(position 1) and 200 (position 2) are at distance 50, and the first of them is
returned. -/
theorem c16_round_rate_discrete_nearest_first_witness :
    ((⟨true, 4, [100, 300, 200, 300], 0, 0, 0⟩ : scmi_clock_info).rate_discrete = true ∧
      (⟨true, 4, [100, 300, 200, 300], 0, 0, 0⟩ : scmi_clock_info).rates ≠ [] ∧
      (⟨true, 4, [100, 300, 200, 300], 0, 0, 0⟩ : scmi_clock_info).num_rates
        = (([100, 300, 200, 300] : List Nat).length : Int) ∧
      (∀ x ∈ ([100, 300, 200, 300] : List Nat), x < 2 ^ 63) ∧
      (250 : Nat) < 2 ^ 63) ∧
    scmi_clk_round_rate (some ⟨true, 4, [100, 300, 200, 300], 0, 0, 0⟩) 250
      = some 300 ∧
    ∃ (best pos : Nat),
      scmi_clk_round_rate (some ⟨true, 4, [100, 300, 200, 300], 0, 0, 0⟩) 250
        = some (best : Int) ∧
      ([100, 300, 200, 300] : List Nat)[pos]? = some best :=
  ⟨by decide, by decide,
   (c16_round_rate_discrete_nearest_first ⟨true, 4, [100, 300, 200, 300], 0, 0, 0⟩
      250 rfl (by decide) (by decide) (by decide) (by decide)).imp
     fun _ h => h.imp fun _ h => ⟨h.1, h.2.1⟩⟩

/-- C17, as stated, fails: with `rate_discrete` clear and the range
`[0, 2 ^ 64 - 1]`, the requested rate `2 ^ 63` is neither below the minimum nor
above the maximum, and the `long` that is returned is `-2 ^ 63`: not the rate
itself and not inside the range; without clock info the same rate also comes
back as `-2 ^ 63`. -/
theorem c17_long_result_leaves_the_range :
    (0 : Nat) ≤ 2 ^ 64 - 1 ∧
    scmi_clk_round_rate (some ⟨false, 0, [], 0, 2 ^ 64 - 1, 0⟩) (2 ^ 63)
      = some (-(2 ^ 63)) ∧
    scmi_clk_round_rate (some ⟨false, 0, [], 0, 2 ^ 64 - 1, 0⟩) (2 ^ 63)
      ≠ some (((2 ^ 63 : Nat)) : Int) ∧
    (-(2 ^ 63) : Int) < ((0 : Nat) : Int) ∧
    scmi_clk_round_rate none (2 ^ 63) = some (-(2 ^ 63)) := by
  decide

/-- C17 (amended): continuous-range case of `scmi_clk_round_rate`. For a clock
info with `rate_discrete` clear, `min_rate <= max_rate` and `max_rate` below
`2 ^ 63`, the result is `min_rate` when `rate < min_rate`, `max_rate` when
`rate > max_rate` and `rate` itself otherwise; it lies in
`[min_rate, max_rate]`, rounding it again returns it unchanged, and rounding is
monotone in `rate`. Without clock info a requested rate below `2 ^ 63` is
returned unchanged. -/
theorem c17_round_rate_range_clamps (info : scmi_clock_info) (rate free_rate : Nat)
    (hcont : info.rate_discrete = false)
    (hmm : info.min_rate ≤ info.max_rate)
    (hmax : info.max_rate < 2 ^ 63)
    (hfree : free_rate < 2 ^ 63) :
    (∃ res : Nat,
      scmi_clk_round_rate (some info) rate = some (res : Int) ∧
      (rate < info.min_rate → res = info.min_rate) ∧
      (rate > info.max_rate → res = info.max_rate) ∧
      (info.min_rate ≤ rate → rate ≤ info.max_rate → res = rate) ∧
      info.min_rate ≤ res ∧ res ≤ info.max_rate ∧
      scmi_clk_round_rate (some info) res = some (res : Int) ∧
      (∀ rate2 res2 : Nat, rate ≤ rate2 →
        scmi_clk_round_rate (some info) rate2 = some (res2 : Int) → res ≤ res2)) ∧
    scmi_clk_round_rate none free_rate = some (free_rate : Int) := by
  have hmin : info.min_rate % 2 ^ 64 = info.min_rate := Nat.mod_eq_of_lt (by omega)
  have hmx : info.max_rate % 2 ^ 64 = info.max_rate := Nat.mod_eq_of_lt (by omega)
  have hval : ∀ r : Nat, scmi_clk_round_rate (some info) r
      = some (((if r < info.min_rate then info.min_rate
          else if r > info.max_rate then info.max_rate else r : Nat)) : Int) := by
    intro r
    simp only [scmi_clk_round_rate, hcont, hmin, hmx]
    have hlt : (if r < info.min_rate then info.min_rate
        else if r > info.max_rate then info.max_rate else r) < 2 ^ 63 := by
      split_ifs <;> omega
    simp [to_long_eq _ hlt]
  refine ⟨⟨if rate < info.min_rate then info.min_rate
      else if rate > info.max_rate then info.max_rate else rate,
    hval rate, ?_, ?_, ?_, ?_, ?_, ?_, ?_⟩, ?_⟩
  · intro h; simp [h]
  · intro h
    have : ¬ rate < info.min_rate := by omega
    simp [this, h]
  · intro h1 h2
    have a : ¬ rate < info.min_rate := by omega
    have b : ¬ rate > info.max_rate := by omega
    simp [a, b]
  · split_ifs <;> omega
  · split_ifs <;> omega
  · rw [hval]
    congr 2
    split_ifs <;> omega
  · intro rate2 res2 hle h2
    rw [hval rate2] at h2
    have h3 : (if rate2 < info.min_rate then info.min_rate
        else if rate2 > info.max_rate then info.max_rate else rate2) = res2 := by
      have := Option.some.inj h2
      exact_mod_cast this
    rw [← h3]
    split_ifs <;> omega
  · simp [scmi_clk_round_rate, to_long_eq free_rate hfree]

/-- The amended C17 on the range 200 MHz to 2 GHz of the platform's CPU clocks: a
request for 100 MHz is raised to the minimum, and without clock info 100 MHz
comes back unchanged. -/
theorem c17_round_rate_range_clamps_witness :
    ((⟨false, 0, [], 200000000, 2000000000, 25000000⟩ : scmi_clock_info).rate_discrete
        = false ∧
      (200000000 : Nat) ≤ 2000000000 ∧ (2000000000 : Nat) < 2 ^ 63 ∧
      (100000000 : Nat) < 2 ^ 63) ∧
    (∃ res : Nat,
      scmi_clk_round_rate (some ⟨false, 0, [], 200000000, 2000000000, 25000000⟩)
          100000000 = some (res : Int) ∧
      res = 200000000) ∧
    scmi_clk_round_rate none 100000000 = some ((100000000 : Nat) : Int) :=
  ⟨by decide,
   (c17_round_rate_range_clamps ⟨false, 0, [], 200000000, 2000000000, 25000000⟩
      100000000 100000000 rfl (by decide) (by decide) (by decide)).1.imp
     fun _ h => ⟨h.1, h.2.1 (by decide)⟩,
   (c17_round_rate_range_clamps ⟨false, 0, [], 200000000, 2000000000, 25000000⟩
      100000000 100000000 rfl (by decide) (by decide) (by decide)).2⟩

/-! ## Driver side: translating a clock specifier -/

/-- C18: for a provider with `num_clocks > 0` slots, `scmi_clk_of_xlate` always
returns, without indexing `clks` at or beyond `num_clocks`. It returns
`ERR_PTR(-EINVAL)` exactly when the specifier does not have one argument, or
`clk_id >= num_clocks`, or the slot `clks[clk_id]` is empty; otherwise it
returns the `hw` of the clock stored at `clks[clk_id]`. When
`clk_id >= num_clocks` the result does not depend on what `clks` holds. -/
theorem c18_of_xlate_einval_iff (EINVAL : Int) (clkspec : of_phandle_args)
    (provider : scmi_clk_provider) (clk_id : Nat)
    (hpos : 0 < provider.num_clocks) (hint : provider.num_clocks < 2 ^ 31)
    (hclks : (provider.clks.length : Int) = provider.num_clocks)
    (harg : clkspec.args[0]? = some clk_id) (hid : clk_id < 2 ^ 32) :
    (∃ res : xlate_result,
      scmi_clk_of_xlate EINVAL clkspec provider = some res ∧
      (res = .ERR_PTR (-EINVAL) ↔
        (clkspec.args_count ≠ 1 ∨ provider.num_clocks ≤ (clk_id : Int) ∨
          provider.clks[clk_id]? = some none)) ∧
      (res ≠ .ERR_PTR (-EINVAL) →
        ∃ sclk : scmi_clk_data,
          provider.clks[clk_id]? = some (some sclk) ∧ res = .hw_of sclk.hw)) ∧
    (provider.num_clocks ≤ (clk_id : Int) →
      ∀ clks : List (Option scmi_clk_data),
        scmi_clk_of_xlate EINVAL clkspec { provider with clks := clks }
          = scmi_clk_of_xlate EINVAL clkspec provider) := by
  have hm : clk_id % 2 ^ 32 = clk_id := Nat.mod_eq_of_lt hid
  have hn : (provider.num_clocks % 2 ^ 32).toNat = provider.clks.length := by omega
  have hbad : clkspec.args_count ≠ 1 → ∀ clks : List (Option scmi_clk_data),
      scmi_clk_of_xlate EINVAL clkspec { provider with clks := clks }
        = some (.ERR_PTR (-EINVAL)) := by
    intro hc clks
    simp only [scmi_clk_of_xlate, hc, ne_eq, not_false_eq_true, if_true]
  have heval : clkspec.args_count = 1 → ∀ clks : List (Option scmi_clk_data),
      scmi_clk_of_xlate EINVAL clkspec { provider with clks := clks }
        = if clk_id ≥ provider.clks.length then some (.ERR_PTR (-EINVAL))
          else match clks[clk_id]? with
            | none => none
            | some none => some (.ERR_PTR (-EINVAL))
            | some (some sclk) => some (.hw_of sclk.hw) := by
    intro hc clks
    simp only [scmi_clk_of_xlate, hc, ne_eq, not_true_eq_false, if_false, harg, hm,
      hn]
    rfl
  constructor
  · by_cases hc : clkspec.args_count = 1
    · have hrun : scmi_clk_of_xlate EINVAL clkspec provider = _ :=
        heval hc provider.clks
      by_cases hge : provider.clks.length ≤ clk_id
      · refine ⟨.ERR_PTR (-EINVAL), ?_, ?_, ?_⟩
        · rw [hrun, if_pos hge]
        · simp only [true_iff]
          right; left; omega
        · intro h; exact absurd rfl h
      · have hlt : clk_id < provider.clks.length := by omega
        obtain ⟨slot, hslot⟩ : ∃ slot, provider.clks[clk_id]? = some slot :=
          ⟨_, List.getElem?_eq_getElem hlt⟩
        cases slot with
        | none =>
          refine ⟨.ERR_PTR (-EINVAL), ?_, ?_, ?_⟩
          · rw [hrun, if_neg hge, hslot]
          · simp only [true_iff]
            right; right; exact hslot
          · intro h; exact absurd rfl h
        | some sclk =>
          refine ⟨.hw_of sclk.hw, ?_, ?_, ?_⟩
          · rw [hrun, if_neg hge, hslot]
          · constructor
            · intro h; cases h
            · rintro (h | h | h)
              · exact absurd hc h
              · omega
              · rw [hslot] at h; cases h
          · intro _
            exact ⟨sclk, hslot, rfl⟩
    · have hrun : scmi_clk_of_xlate EINVAL clkspec provider = _ :=
        hbad hc provider.clks
      refine ⟨.ERR_PTR (-EINVAL), hrun, ?_, ?_⟩
      · simp only [true_iff]
        left; exact hc
      · intro h; exact absurd rfl h
  · intro hge clks
    have hge2 : provider.clks.length ≤ clk_id := by omega
    by_cases hc : clkspec.args_count = 1
    · have h1 : scmi_clk_of_xlate EINVAL clkspec provider = _ :=
        heval hc provider.clks
      rw [heval hc clks, h1, if_pos hge2, if_pos hge2]
    · have h1 : scmi_clk_of_xlate EINVAL clkspec provider = _ :=
        hbad hc provider.clks
      rw [hbad hc clks, h1]

/-- C18 on a provider of three slots, the middle one empty, with `EINVAL = 22`:
the specifier `<1>` is refused and the specifier `<2>` yields the `hw` of the
third clock. -/
theorem c18_of_xlate_einval_iff_witness :
    ((0 : Int) < 3 ∧ (3 : Int) < 2 ^ 31 ∧
      ((([some ⟨500, 0⟩, none, some ⟨502, 2⟩] : List (Option scmi_clk_data)).length
          : Int) = 3) ∧
      ([2] : List Nat)[0]? = some 2 ∧ (2 : Nat) < 2 ^ 32) ∧
    scmi_clk_of_xlate 22 ⟨1, [1]⟩ ⟨[some ⟨500, 0⟩, none, some ⟨502, 2⟩], 3⟩
      = some (.ERR_PTR (-22)) ∧
    ∃ res : xlate_result,
      scmi_clk_of_xlate 22 ⟨1, [2]⟩ ⟨[some ⟨500, 0⟩, none, some ⟨502, 2⟩], 3⟩
        = some res ∧
      (res = .ERR_PTR (-22) ↔
        ((1 : Int) ≠ 1 ∨ (3 : Int) ≤ ((2 : Nat) : Int) ∨
          ([some ⟨500, 0⟩, none, some ⟨502, 2⟩] : List (Option scmi_clk_data))[2]?
            = some none)) :=
  ⟨by decide, by decide,
   (c18_of_xlate_einval_iff 22 ⟨1, [2]⟩ ⟨[some ⟨500, 0⟩, none, some ⟨502, 2⟩], 3⟩ 2
      (by decide) (by decide) (by decide) (by decide) (by decide)).1.imp
     fun _ h => ⟨h.1, h.2.1⟩⟩

end ScmiClock
